import Mathlib

set_option autoImplicit false

/-!
Verification development for the nr-isaac-format converter.

The Python source (converter, mapper context, nine block mappers, ULID
utilities, asset hashing, null-stripping serialization) is shallowly
embedded below.  Python runtime values are modelled by `PyVal`; Python
floats are modelled by `PyFloat`, an exact-rational idealization of
binary64 that keeps the NaN / +inf / -inf special values explicit.
External collaborators (the system clock, `datetime` parsing/formatting,
`float(str)` parsing, `hashlib.sha256`, the filesystem, the random bits of
a ULID, and the JSON-schema validator) are abstracted into a `PyEnv`
record of oracle functions; everything the repository itself implements
is translated directly from the source.
-/

/-- A single quote character, used when building Python-style messages. -/
def sQuote : String := String.singleton (Char.ofNat 39)

/-- Python `float`: a finite value (exact rational idealization of
binary64), positive/negative infinity, or NaN. -/
inductive PyFloat where
  | fin (q : ℚ)
  | pinf
  | ninf
  | nanv
deriving Repr, DecidableEq

/-- Model of a Python `datetime` instance: the epoch-millisecond instant
(as consumed by the ULID generator) together with its two `strftime`
renderings used by the converter.  Timezone normalization to UTC is
modelled as the identity on the instant. -/
structure DatetimeV where
  ms : ℕ
  isoStr : String   -- strftime("%Y-%m-%dT%H:%M:%SZ")
  dateStr : String  -- strftime("%Y-%m-%d")
deriving Repr, DecidableEq

/-- Model of the Python runtime values flowing through the converter:
`None`, booleans, ints, floats, strings, lists, string-keyed dicts
(association lists in insertion order, unique keys), datetimes, and
numpy-like wrapped scalars (objects exposing `.item()`). -/
inductive PyVal where
  | none
  | bool (b : Bool)
  | int (n : ℤ)
  | float (f : PyFloat)
  | str (s : String)
  | list (xs : List PyVal)
  | dict (kvs : List (String × PyVal))
  | dt (t : DatetimeV)
  | wrapped (v : PyVal)
deriving Repr

/-- A Python dict with string keys, in insertion order. -/
abbrev PyDict := List (String × PyVal)

/-- Python truthiness (`bool(v)`). -/
def PyVal.truthy : PyVal → Bool
  | .none => false
  | .bool b => b
  | .int n => n ≠ 0
  | .float f => match f with
    | .fin q => q ≠ 0
    | _ => true            -- NaN and the infinities are truthy
  | .str s => s ≠ ""
  | .list xs => !xs.isEmpty
  | .dict kvs => !kvs.isEmpty
  | .dt _ => true
  | .wrapped v => v.truthy  -- a numpy scalar delegates to its value

/-- `v is None`. -/
def PyVal.isNone : PyVal → Bool
  | .none => true
  | _ => false

/-- Numeric view of a value, as used by Python arithmetic and
comparisons: bools are 0/1, a wrapped scalar contributes its value;
non-numeric values have no view (the operation raises). -/
def PyVal.toNumV : PyVal → Option PyFloat
  | .bool b => some (.fin (if b then 1 else 0))
  | .int n => some (.fin (n : ℚ))
  | .float f => some f
  | .wrapped v => v.toNumV
  | _ => Option.none

/-- `a < b` on Python floats (NaN incomparable). -/
def numLt : PyFloat → PyFloat → Bool
  | .fin a, .fin b => a < b
  | .fin _, .pinf => true
  | .ninf, .fin _ => true
  | .ninf, .pinf => true
  | _, _ => false

/-- `a > b` on Python floats (NaN incomparable). -/
def numGt : PyFloat → PyFloat → Bool
  | .fin a, .fin b => b < a
  | .pinf, .fin _ => true
  | .fin _, .ninf => true
  | .pinf, .ninf => true
  | _, _ => false

/-- Python `==` for the values compared in this code base (file-path
strings, numbers, None).  Numbers compare numerically across int/float/
bool/wrapped; NaN is unequal to everything; container equality is not
needed by the embedded code paths and is modelled as False. -/
def pyEq (a b : PyVal) : Bool :=
  match a.toNumV, b.toNumV with
  | some x, some y =>
    match x, y with
    | .fin p, .fin q => p = q
    | .pinf, .pinf => true
    | .ninf, .ninf => true
    | _, _ => false
  | _, _ =>
    match a, b with
    | .str s, .str t => s = t
    | .none, .none => true
    | .dt t, .dt u => t = u
    | _, _ => false

/-- `str(v)` for the values this code base stringifies (strings pass
through; numbers and None get their standard rendering; the repr of
containers is not exercised by the embedded paths). -/
def pyStr : PyVal → String
  | .str s => s
  | .int n => toString n
  | .bool b => if b then "True" else "False"
  | .none => "None"
  | .float f => match f with
    | .fin q => toString q
    | .pinf => "inf"
    | .ninf => "-inf"
    | .nanv => "nan"
  | .dt t => t.isoStr
  | .list _ => "[...]"
  | .dict _ => "{...}"
  | .wrapped v => pyStr v

/-- Dict lookup: `some v` iff the key is present. -/
def dlookup (d : PyDict) (k : String) : Option PyVal :=
  match d.find? (fun kv => kv.1 == k) with
  | some kv => some kv.2
  | Option.none => Option.none

/-- Python `d.get(k)` (absent keys give None). -/
def dget (d : PyDict) (k : String) : PyVal :=
  (dlookup d k).getD PyVal.none

/-- Python `d.get(k, dflt)`. -/
def dgetD (d : PyDict) (k : String) (dflt : PyVal) : PyVal :=
  (dlookup d k).getD dflt

/-- Python `k in d`. -/
def hasKey (d : PyDict) (k : String) : Bool :=
  (dlookup d k).isSome

/-- Python `d[k] = v`: replace in place if the key exists, else append. -/
def dset (d : PyDict) (k : String) (v : PyVal) : PyDict :=
  match d with
  | [] => [(k, v)]
  | kv :: rest => if kv.1 = k then (k, v) :: rest else kv :: dset rest k v

/-- Python `d1.update(d2)`. -/
def dupdate (d1 d2 : PyDict) : PyDict :=
  d2.foldl (fun acc kv => dset acc kv.1 kv.2) d1

/-- Truthiness of an `Optional[dict]` (None and `{}` are both falsy). -/
def optDictTruthy : Option PyDict → Bool
  | Option.none => false
  | some d => !d.isEmpty

/-- A raised Python exception, as captured by the converter boundary:
`str(e)`, `type(e).__name__`, and `traceback.format_exc()`. -/
structure PyExc where
  msg : String
  kind : String
  trace : String
deriving Repr, DecidableEq

/-- `AttributeError` raised when `.get` is used on a non-mapping. -/
def attrErrGet : PyExc :=
  ⟨"object has no attribute " ++ sQuote ++ "get" ++ sQuote, "AttributeError", ""⟩

/-- `TypeError` raised when iterating or taking `len()` of a non-sequence. -/
def typeErrIter : PyExc :=
  ⟨"object is not iterable", "TypeError", ""⟩

/-- `TypeError` raised by numeric coercion/arithmetic on a non-number. -/
def typeErrNum : PyExc :=
  ⟨"argument must be a number", "TypeError", ""⟩

/-- `TypeError` raised when a string operation meets a non-string. -/
def typeErrStr : PyExc :=
  ⟨"argument must be a string", "TypeError", ""⟩

/-- Viewing a value as a mapping; Python raises on `.get` otherwise. -/
def PyVal.asDictE : PyVal → Except PyExc PyDict
  | .dict kvs => .ok kvs
  | _ => .error attrErrGet

/-- Viewing a value as a list; Python raises on iteration/len otherwise. -/
def PyVal.asListE : PyVal → Except PyExc (List PyVal)
  | .list xs => .ok xs
  | _ => .error typeErrIter

/-- Viewing a value as a str; Python raises at the first string op. -/
def PyVal.asStrE : PyVal → Except PyExc String
  | .str s => .ok s
  | _ => .error typeErrStr

/-- Oracle record for the external collaborators of the converter:
the clock, `datetime.fromisoformat`, `float(str)` parsing, the random
80 bits of a ULID, `hashlib.sha256` (bytes -> 64-char lowercase hex
digest), UTF-8 encoding of a path string, the filesystem (bytes of a
file when it exists, is a regular file and is readable), resolution of
a relative path to an absolute one, and the JSON-schema validator
(flattened "path: message" strings, empty when validation passes or is
skipped because no schema/validator is available). -/
structure PyEnv where
  now : DatetimeV
  parseIso : String → Option DatetimeV
  parseFloat : String → Option PyFloat
  rand : Fin 16 → Fin 32
  sha256hex : List ℕ → String
  encodeUtf8 : String → List ℕ
  readFile : String → Option (List ℕ)
  absPath : String → String

/-- Python `float(v)`: numeric values coerce, strings are parsed,
everything else raises (`Option.none`). -/
def pyFloatCoerce (env : PyEnv) : PyVal → Option PyFloat
  | .bool b => some (.fin (if b then 1 else 0))
  | .int n => some (.fin (n : ℚ))
  | .float f => some f
  | .str s => env.parseFloat s
  | .wrapped v => pyFloatCoerce env v
  | _ => Option.none

/-- `abs()` on a Python float. -/
def pyAbsF : PyFloat → PyFloat
  | .fin q => .fin |q|
  | .pinf => .pinf
  | .ninf => .pinf
  | .nanv => .nanv

/-- Multiplication of a Python float by a positive finite constant
(used for the literal `0.01`). -/
def pyMulF : PyFloat → ℚ → PyFloat
  | .fin q, c => .fin (q * c)
  | .pinf, _ => .pinf
  | .ninf, _ => .ninf
  | .nanv, _ => .nanv

/-- Addition of Python floats (used for thickness accumulation). -/
def pyAddF : PyFloat → PyFloat → PyFloat
  | .fin a, .fin b => .fin (a + b)
  | .fin _, .pinf => .pinf
  | .pinf, .fin _ => .pinf
  | .pinf, .pinf => .pinf
  | .fin _, .ninf => .ninf
  | .ninf, .fin _ => .ninf
  | .ninf, .ninf => .ninf
  | .pinf, .ninf => .nanv
  | .ninf, .pinf => .nanv
  | .nanv, _ => .nanv
  | _, .nanv => .nanv

/-- Division of Python floats with a nonzero finite divisor. -/
def pyDivF : PyFloat → ℚ → PyFloat
  | .fin a, b => .fin (a / b)
  | .pinf, b => if b < 0 then .ninf else .pinf
  | .ninf, b => if b < 0 then .pinf else .ninf
  | .nanv, _ => .nanv

/-- `a < b` on Python values; non-numeric operands raise `TypeError`
(the arrays compared here are numeric by the input contract). -/
def pyLtE (a b : PyVal) : Except PyExc Bool :=
  match a.toNumV, b.toNumV with
  | some x, some y => .ok (numLt x y)
  | _, _ => .error typeErrNum

/-- `a > b` on Python values (see `pyLtE`). -/
def pyGtE (a b : PyVal) : Except PyExc Bool :=
  match a.toNumV, b.toNumV with
  | some x, some y => .ok (numGt x y)
  | _, _ => .error typeErrNum

/-- Tail of Python `min(..)`: fold keeping the first minimal element
(`if item < current: current = item`). -/
def pyMinGo (acc : PyVal) : List PyVal → Except PyExc PyVal
  | [] => .ok acc
  | y :: ys =>
    match pyLtE y acc with
    | .ok true => pyMinGo y ys
    | .ok false => pyMinGo acc ys
    | .error e => .error e

/-- Python `min(xs)` (ValueError on an empty sequence). -/
def pyMinE : List PyVal → Except PyExc PyVal
  | [] => .error ⟨"min() arg is an empty sequence", "ValueError", ""⟩
  | x :: rest => pyMinGo x rest

/-- Tail of Python `max(..)`: fold keeping the first maximal element. -/
def pyMaxGo (acc : PyVal) : List PyVal → Except PyExc PyVal
  | [] => .ok acc
  | y :: ys =>
    match pyGtE y acc with
    | .ok true => pyMaxGo y ys
    | .ok false => pyMaxGo acc ys
    | .error e => .error e

/-- Python `max(xs)` (ValueError on an empty sequence). -/
def pyMaxE : List PyVal → Except PyExc PyVal
  | [] => .error ⟨"max() arg is an empty sequence", "ValueError", ""⟩
  | x :: rest => pyMaxGo x rest

/-- Python `float(v)` raising a `TypeError`/`ValueError` on failure. -/
def pyFloatCoerceE (env : PyEnv) (v : PyVal) : Except PyExc PyFloat :=
  match pyFloatCoerce env v with
  | some f => .ok f
  | Option.none => .error typeErrNum

/-- Round-half-even to an integer (Python `round`). -/
def roundHalfEven (q : ℚ) : ℤ :=
  let f := Int.floor q
  let r := q - f
  if r < 1/2 then f
  else if 1/2 < r then f + 1
  else if f % 2 = 0 then f else f + 1

/-- Python `round(x, 4)` on a float; rounding NaN or an infinity to a
fixed number of digits raises in Python. -/
def pyRound4E : PyFloat → Except PyExc PyFloat
  | .fin q => .ok (.fin ((roundHalfEven (q * 10000) : ℚ) / 10000))
  | .pinf => .error ⟨"cannot convert float infinity to integer", "OverflowError", ""⟩
  | .ninf => .error ⟨"cannot convert float infinity to integer", "OverflowError", ""⟩
  | .nanv => .error ⟨"cannot convert float NaN to integer", "ValueError", ""⟩

-- ULID generation and validation (`ulid.py`).

/-- The Crockford base32 alphabet used by ULIDs and by `validate_ulid`
(uppercase, excludes I, L, O, U). -/
def CROCKFORD_ALPHABET : String := "0123456789ABCDEFGHJKMNPQRSTVWXYZ"

/-- The digit-to-character table of the Crockford alphabet. -/
def crockChar (d : ℕ) : Char := CROCKFORD_ALPHABET.toList.getD d '0'

/-- Fixed-width big-endian base-32 digits of a natural number. -/
def encodeBase32 : ℕ → ℕ → List ℕ
  | 0, _ => []
  | w + 1, n => (n / 32 ^ w) % 32 :: encodeBase32 w n

/-- Modelled from the spec: the external `ulid` library used by
`generate_ulid` encodes the 48-bit epoch-millisecond timestamp as the
first 10 Crockford base32 characters (big-endian) and 80 random bits as
the remaining 16 characters; `generate_ulid` returns `str(ulid).upper()`,
and the alphabet is already uppercase. -/
def generate_ulid (ms : ℕ) (randomness : Fin 16 → Fin 32) : String :=
  (((encodeBase32 10 ms).map crockChar)
    ++ ((List.finRange 16).map (fun i => crockChar (randomness i)))).asString

/-- `validate_ulid` from `ulid.py`: length must be exactly 26 and every
character must belong to the Crockford uppercase alphabet. -/
def validate_ulid (value : String) : Bool :=
  if value.length ≠ 26 then false
  else value.data.all (fun c => CROCKFORD_ALPHABET.data.contains c)

/-- `ulid_from_uuid` from `ulid.py`: deliberately ignores the UUID and
generates a fresh ULID from the current time. -/
def ulid_from_uuid (env : PyEnv) (_uuid_str : String) : String :=
  generate_ulid env.now.ms env.rand

-- Mapper context (`mappers/base.py`).

/-- `AssemblyResultProtocol`: the read-only source record. -/
structure AssemblyResult where
  reflectivity : Option PyDict
  sample : Option PyDict
  environment : Option PyDict
  warnings : List String
  errors : List String

/-- `MeasurementData`: the typed channel Measurement publishes for
Descriptors.  The source annotates `measurement_geometry` as
`Optional[str]` but assigns the raw source value, so the field is
modelled as an optional `PyVal`. -/
structure MeasurementData where
  q_min : Option PyFloat := Option.none
  q_max : Option PyFloat := Option.none
  n_points : Option ℕ := Option.none
  measurement_geometry : Option PyVal := Option.none

/-- `MapperContext`: shared state threaded through one conversion. -/
structure MapperContext where
  result : AssemblyResult
  record_id : String
  created_utc : DatetimeV
  warnings : List String := []
  errors : List String := []
  metadata : PyDict := []
  measurement_data : MeasurementData := {}

/-- Shortcut property `context.reflectivity`. -/
def MapperContext.reflectivity (ctx : MapperContext) : Option PyDict :=
  ctx.result.reflectivity

/-- Shortcut property `context.sample`. -/
def MapperContext.sample (ctx : MapperContext) : Option PyDict :=
  ctx.result.sample

/-- Shortcut property `context.environment`. -/
def MapperContext.environment (ctx : MapperContext) : Option PyDict :=
  ctx.result.environment

/-- `context.add_warning`. -/
def addWarning (ctx : MapperContext) (message : String) : MapperContext :=
  { ctx with warnings := ctx.warnings ++ [message] }

/-- `context.add_error`. -/
def addError (ctx : MapperContext) (message : String) : MapperContext :=
  { ctx with errors := ctx.errors ++ [message] }

/-- The outcome of one `Mapper.map` call: the context as mutated so far,
together with either the returned optional block or a raised exception. -/
abbrev MapResult := MapperContext × Except PyExc (Option PyVal)

/-- A concrete mapper, as consumed by the converter loop: `block_name`,
`is_required()`, `map`, and `validate`. -/
structure MapperM where
  block_name : String
  is_required : Bool
  map : PyEnv → MapperContext → MapResult
  validate : PyVal → MapperContext → MapperContext × Bool

-- Constants (`constants.py`).

/-- `DEFAULT_Q_UNIT`. -/
def DEFAULT_Q_UNIT : String := "Å⁻¹"

/-- `DEFAULT_R_UNIT`. -/
def DEFAULT_R_UNIT : String := "dimensionless"

/-- `DEFAULT_ENDSTATION`. -/
def DEFAULT_ENDSTATION : String := "reflectometer"

/-- `SampleForm` enum values. -/
def sampleFormValues : List String :=
  ["thin_film", "bulk", "powder", "solution", "gas"]

-- Timestamps mapper (`mappers/timestamps.py`).

/-- `TimestampsMapper._normalize_datetime`: datetimes pass through
(naive ones are assumed UTC, modelled as the same instant), ISO-8601
strings are parsed after replacing a trailing `Z`, and anything else
falls back to the current time. -/
def timestamps_normalize_datetime (env : PyEnv) (v : PyVal) : DatetimeV :=
  match v with
  | .dt t => t
  | .str s =>
    match env.parseIso (s.replace "Z" "+00:00") with
    | some t => t
    | Option.none => env.now
  | _ => env.now

/-- `TimestampsMapper._format_iso`: UTC `strftime("%Y-%m-%dT%H:%M:%SZ")`. -/
def timestamps_format_iso (t : DatetimeV) : String := t.isoStr

/-- `TimestampsMapper.map`. -/
def timestamps_map (env : PyEnv) (ctx : MapperContext) : MapResult :=
  let created_utc := ctx.created_utc
  let created_utc :=
    if optDictTruthy ctx.reflectivity then
      let refl_created := dget (ctx.reflectivity.getD []) "created_at"
      if refl_created.truthy then timestamps_normalize_datetime env refl_created
      else created_utc
    else created_utc
  let result : PyDict := [("created_utc", .str (timestamps_format_iso created_utc))]
  if optDictTruthy ctx.reflectivity then
    let run_start := dget (ctx.reflectivity.getD []) "run_start"
    if run_start.truthy then
      let acquired_start := timestamps_normalize_datetime env run_start
      (ctx, .ok (some (.dict (result ++
        [("acquired_start_utc", .str (timestamps_format_iso acquired_start))]))))
    else
      (addWarning ctx "run_start not found, acquired timestamps omitted",
        .ok (some (.dict result)))
  else
    (ctx, .ok (some (.dict result)))

/-- `TimestampsMapper.validate`. -/
def timestamps_validate (block : PyVal) (ctx : MapperContext) :
    MapperContext × Bool :=
  match block with
  | .dict kvs =>
    if !hasKey kvs "created_utc" then
      (addError ctx "timestamps.created_utc is required", false)
    else (ctx, true)
  | _ => (ctx, true)

-- AcquisitionSource mapper (`mappers/acquisition_source.py`).

/-- `AcquisitionSourceMapper._build_facility_block`. -/
def acq_build_facility_block (ctx : MapperContext) : MapperContext × PyDict :=
  let refl := ctx.reflectivity.getD []
  let facility_name := dget refl "facility"
  let (ctx, facility) :=
    if facility_name.truthy then (ctx, [("site", facility_name)])
    else (addWarning ctx ("Facility name not found, using " ++ sQuote ++ "Unknown" ++ sQuote),
      [("site", PyVal.str "Unknown")])
  let instrument := dget refl "instrument_name"
  let (ctx, facility) :=
    if instrument.truthy then (ctx, dset facility "beamline" instrument)
    else (addWarning ctx "Instrument name not found for beamline", facility)
  let facility := dset facility "endstation" (.str DEFAULT_ENDSTATION)
  let laboratory := dget refl "laboratory"
  let ctx :=
    if laboratory.truthy then
      { ctx with metadata := dset ctx.metadata "organization" laboratory }
    else ctx
  (ctx, facility)

/-- `AcquisitionSourceMapper.map`. -/
def acquisition_source_map (_env : PyEnv) (ctx : MapperContext) : MapResult :=
  let result : PyDict := [("source_type", .str "facility")]
  if optDictTruthy ctx.reflectivity then
    let (ctx, facility_info) := acq_build_facility_block ctx
    let result :=
      if !facility_info.isEmpty then dset result "facility" (.dict facility_info)
      else result
    (ctx, .ok (some (.dict result)))
  else
    (addWarning ctx "No reflectivity data for acquisition_source mapping",
      .ok (some (.dict result)))

/-- `SourceType` enum values. -/
def sourceTypeValues : List String :=
  ["facility", "laboratory", "computation", "literature", "database"]

/-- Rendering of a Python set of strings in error messages.  Python set
repr order is unspecified; a fixed enum-declaration order is used here. -/
def setRepr (xs : List String) : String :=
  "\x7b" ++ String.intercalate ", " (xs.map (fun s => sQuote ++ s ++ sQuote)) ++ "\x7d"

/-- `AcquisitionSourceMapper.validate`. -/
def acquisition_source_validate (block : PyVal) (ctx : MapperContext) :
    MapperContext × Bool :=
  match block with
  | .dict kvs =>
    if !hasKey kvs "source_type" then
      (addError ctx "acquisition_source.source_type is required", false)
    else if !(match dget kvs "source_type" with
              | .str s => sourceTypeValues.contains s
              | _ => false) then
      (addError ctx ("acquisition_source.source_type must be one of " ++
        setRepr sourceTypeValues), false)
    else (ctx, true)
  | _ => (ctx, true)

-- Measurement mapper (`mappers/measurement.py`).

/-- `MeasurementMapper._to_native_type`: unwrap a value exposing
`.item()` once, keep `int` instances unchanged (Python bools are int
instances and also pass through), convert everything else with
`float()`, and map NaN/±Inf — and any value `float()` rejects — to
None. -/
def to_native_type (env : PyEnv) (value : PyVal) : PyVal :=
  let value := match value with
    | .wrapped v => v
    | v => v
  match value with
  | .bool b => .bool b
  | .int n => .int n
  | v =>
    match pyFloatCoerce env v with
    | some (.fin q) => .float (.fin q)
    | some _ => .none
    | Option.none => .none

/-- `MeasurementMapper._ensure_native_types` (the per-element loop). -/
def ensure_native_types (env : PyEnv) (values : List PyVal) : List PyVal :=
  values.map (to_native_type env)

/-- `MeasurementMapper._build_processing`: also publishes the
measurement geometry to the typed channel and the legacy metadata bag. -/
def measurement_build_processing (refl_data : PyDict) (ctx : MapperContext) :
    MapperContext × PyVal :=
  let processing : PyDict := [("type", .str "reduced_reflectivity")]
  let reduction_version := dget refl_data "reduction_version"
  let processing :=
    if reduction_version.truthy then dset processing "software_version" reduction_version
    else processing
  let geometry := dget refl_data "measurement_geometry"
  if geometry.truthy then
    let processing := dset processing "geometry" geometry
    let ctx :=
      { ctx with
        measurement_data := { ctx.measurement_data with measurement_geometry := some geometry },
        metadata := dset ctx.metadata "measurement_geometry" geometry }
    (ctx, .dict processing)
  else
    (ctx, .dict processing)

/-- The `R` channel literal of `_build_series`. -/
def channelR (env : PyEnv) (rl : List PyVal) : PyVal :=
  .dict [("name", .str "R"), ("unit", .str DEFAULT_R_UNIT),
    ("role", .str "primary_signal"),
    ("values", .list (ensure_native_types env rl))]

/-- The `dR` channel literal of `_build_series`. -/
def channelDR (env : PyEnv) (drl : List PyVal) : PyVal :=
  .dict [("name", .str "dR"), ("unit", .str DEFAULT_R_UNIT),
    ("role", .str "quality_monitor"),
    ("values", .list (ensure_native_types env drl))]

/-- The `dQ` channel literal of `_build_series`. -/
def channelDQ (env : PyEnv) (dql : List PyVal) : PyVal :=
  .dict [("name", .str "dQ"), ("unit", .str DEFAULT_Q_UNIT),
    ("role", .str "quality_monitor"),
    ("values", .list (ensure_native_types env dql))]

/-- The dR length-mismatch warning text. -/
def drMismatchMsg (ndr nr : ℕ) : String :=
  "dR length (" ++ toString ndr ++ ") doesn" ++ sQuote ++ "t match R length (" ++
    toString nr ++ ")"

/-- The dQ length-mismatch warning text. -/
def dqMismatchMsg (ndq nq : ℕ) : String :=
  "dQ length (" ++ toString ndq ++ ") doesn" ++ sQuote ++ "t match Q length (" ++
    toString nq ++ ")"

/-- The data-statistics tail of `_build_series`: `q_min = float(min(q))`,
`q_max = float(max(q))`, `n_points = len(q)`, published both to the typed
`measurement_data` channel and to the legacy metadata bag. -/
def measurement_series_stats (env : PyEnv) (q : PyVal) (ql : List PyVal)
    (ctx : MapperContext) : MapperContext × Except PyExc Unit :=
  if q.truthy then
    match pyMinE ql with
    | .error e => (ctx, .error e)
    | .ok mn =>
      match pyFloatCoerceE env mn with
      | .error e => (ctx, .error e)
      | .ok q_min =>
        match pyMaxE ql with
        | .error e => (ctx, .error e)
        | .ok mx =>
          match pyFloatCoerceE env mx with
          | .error e => (ctx, .error e)
          | .ok q_max =>
            let n_points := ql.length
            ({ ctx with
                measurement_data := { ctx.measurement_data with
                  q_min := some q_min, q_max := some q_max, n_points := some n_points },
                metadata := dset (dset (dset ctx.metadata
                  "q_min" (.float q_min)) "q_max" (.float q_max))
                  "n_points" (.int (n_points : ℤ)) },
              .ok ())
  else (ctx, .ok ())

/-- `MeasurementMapper._build_series`. -/
def measurement_build_series (env : PyEnv) (q r dr dq : PyVal)
    (ctx : MapperContext) : MapperContext × Except PyExc PyVal :=
  match q.asListE with
  | .error e => (ctx, .error e)
  | .ok ql =>
  match r.asListE with
  | .error e => (ctx, .error e)
  | .ok rl =>
  let independent_variables : PyVal :=
    .list [.dict [("name", .str "q"), ("unit", .str DEFAULT_Q_UNIT),
      ("values", .list (ensure_native_types env ql))]]
  let channels : List PyVal := [channelR env rl]
  -- dR: included only when non-empty and the length matches R
  let drStep : MapperContext × Except PyExc (List PyVal) :=
    if dr.truthy then
      match dr.asListE with
      | .error e => (ctx, .error e)
      | .ok drl =>
        if drl.length = rl.length then
          (ctx, .ok (channels ++ [channelDR env drl]))
        else
          (addWarning ctx (drMismatchMsg drl.length rl.length), .ok channels)
    else (ctx, .ok channels)
  match drStep with
  | (ctx, .error e) => (ctx, .error e)
  | (ctx, .ok channels) =>
  -- dQ: included only when non-empty and the length matches Q
  let dqStep : MapperContext × Except PyExc (List PyVal) :=
    if dq.truthy then
      match dq.asListE with
      | .error e => (ctx, .error e)
      | .ok dql =>
        if dql.length = ql.length then
          (ctx, .ok (channels ++ [channelDQ env dql]))
        else
          (addWarning ctx (dqMismatchMsg dql.length ql.length), .ok channels)
    else (ctx, .ok channels)
  match dqStep with
  | (ctx, .error e) => (ctx, .error e)
  | (ctx, .ok channels) =>
  match measurement_series_stats env q ql ctx with
  | (ctx, .error e) => (ctx, .error e)
  | (ctx, .ok ()) =>
    (ctx, .ok (.dict [("series_id", .str "reflectivity_profile"),
      ("independent_variables", independent_variables),
      ("channels", .list channels)]))

/-- `MeasurementMapper._build_qc`: invalid/suspect/valid from the
upstream assembly errors/warnings, evidence truncated to the first 3. -/
def measurement_build_qc (ctx : MapperContext) : PyVal :=
  let assembly_warnings := ctx.result.warnings
  let assembly_errors := ctx.result.errors
  if !assembly_errors.isEmpty then
    .dict [("status", .str "invalid"),
      ("evidence", .str ("Assembly errors: " ++
        String.intercalate "; " (assembly_errors.take 3)))]
  else if !assembly_warnings.isEmpty then
    .dict [("status", .str "suspect"),
      ("evidence", .str ("Assembly warnings: " ++
        String.intercalate "; " (assembly_warnings.take 3)))]
  else
    .dict [("status", .str "valid"),
      ("evidence", .str "Data passed assembly validation.")]

/-- `MeasurementMapper.map`. -/
def measurement_map (env : PyEnv) (ctx : MapperContext) : MapResult :=
  if !optDictTruthy ctx.reflectivity then
    (addWarning ctx "No reflectivity data for measurement mapping", .ok Option.none)
  else
  let refl := ctx.reflectivity.getD []
  let refl_data := dgetD refl "reflectivity" (.dict [])
  if !refl_data.truthy then
    (addWarning ctx "No reflectivity.reflectivity nested data", .ok Option.none)
  else
  match refl_data.asDictE with
  | .error e => (ctx, .error e)
  | .ok rd =>
  let q := dgetD rd "q" (.list [])
  let r := dgetD rd "r" (.list [])
  let dr := dgetD rd "dr" (.list [])
  let dq := dgetD rd "dq" (.list [])
  if !q.truthy || !r.truthy then
    (addError ctx "Missing q or r arrays in reflectivity data", .ok Option.none)
  else
  let (ctx, processing) := measurement_build_processing rd ctx
  match measurement_build_series env q r dr dq ctx with
  | (ctx, .error e) => (ctx, .error e)
  | (ctx, .ok series) =>
    let qc := measurement_build_qc ctx
    (ctx, .ok (some (.dict [("processing", processing),
      ("series", .list [series]), ("qc", qc)])))

/-- The per-channel required-field loop of `MeasurementMapper.validate`. -/
def measurement_validate_channels (ctx : MapperContext) (i : ℕ) :
    List PyVal → MapperContext × Bool
  | [] => (ctx, true)
  | ch :: rest =>
    let chk := match ch with
      | .dict kvs => kvs
      | _ => []
    if !hasKey chk "name" then
      (addError ctx ("channels[" ++ toString i ++ "].name is required"), false)
    else if !hasKey chk "unit" then
      (addError ctx ("channels[" ++ toString i ++ "].unit is required"), false)
    else if !hasKey chk "role" then
      (addError ctx ("channels[" ++ toString i ++ "].role is required"), false)
    else measurement_validate_channels ctx (i + 1) rest

/-- `MeasurementMapper.validate`. -/
def measurement_validate (block : PyVal) (ctx : MapperContext) :
    MapperContext × Bool :=
  let kvs := match block with
    | .dict kvs => kvs
    | _ => []
  if !hasKey kvs "series" then
    (addError ctx "measurement.series is required", false)
  else if !hasKey kvs "qc" then
    (addError ctx "measurement.qc is required", false)
  else
  let series := match dgetD kvs "series" (.list []) with
    | .list xs => xs
    | _ => []
  if series.isEmpty then
    (addError ctx "measurement.series must have at least one series", false)
  else
  let first_series := match series.headD .none with
    | .dict kvs => kvs
    | _ => []
  if !hasKey first_series "series_id" then
    (addError ctx "series.series_id is required", false)
  else if !hasKey first_series "independent_variables" then
    (addError ctx "series.independent_variables is required", false)
  else if !hasKey first_series "channels" then
    (addError ctx "series.channels is required", false)
  else
  let chans := match dgetD first_series "channels" (.list []) with
    | .list xs => xs
    | _ => []
  measurement_validate_channels ctx 0 chans

-- Descriptors mapper (`mappers/descriptors.py`).

/-- `DescriptorsMapper._estimate_q_uncertainty`: 1% relative
uncertainty, `sigma = abs(q_value) * 0.01` (Python `abs` raises on a
non-numeric operand). -/
def estimate_q_uncertainty (q_value : PyVal) : Except PyExc PyVal :=
  match q_value.toNumV with
  | some f => .ok (.dict [("sigma", .float (pyMulF (pyAbsF f) (1/100))),
      ("unit", .str "Å⁻¹")])
  | Option.none => .error ⟨"bad operand type for abs()", "TypeError", ""⟩

/-- The `q_range_min` descriptor literal. -/
def descQRangeMin (v unc : PyVal) : PyVal :=
  .dict [("name", .str "q_range_min"), ("kind", .str "absolute"),
    ("source", .str "computed"), ("value", v), ("unit", .str "Å⁻¹"),
    ("uncertainty", unc)]

/-- The `q_range_max` descriptor literal. -/
def descQRangeMax (v unc : PyVal) : PyVal :=
  .dict [("name", .str "q_range_max"), ("kind", .str "absolute"),
    ("source", .str "computed"), ("value", v), ("unit", .str "Å⁻¹"),
    ("uncertainty", unc)]

/-- The `total_points` descriptor literal (zero uncertainty). -/
def descTotalPoints (v : PyVal) : PyVal :=
  .dict [("name", .str "total_points"), ("kind", .str "absolute"),
    ("source", .str "computed"), ("value", v), ("unit", .str "count"),
    ("uncertainty", .dict [("sigma", .int 0), ("unit", .str "count")])]

/-- The known measurement-geometry descriptor literal. -/
def descGeometry (g : PyVal) : PyVal :=
  .dict [("name", .str "measurement_geometry"), ("kind", .str "categorical"),
    ("source", .str "model"), ("value", g),
    ("uncertainty", .dict [("confidence", .float (.fin (95/100)))])]

/-- The undetermined measurement-geometry descriptor literal. -/
def descGeometryUndetermined : PyVal :=
  .dict [("name", .str "measurement_geometry"), ("kind", .str "categorical"),
    ("source", .str "unknown"), ("value", .str "undetermined"),
    ("uncertainty", .dict [("confidence", .float (.fin 0))])]

/-- The `probe_type` descriptor literal. -/
def descProbeType (p : PyVal) : PyVal :=
  .dict [("name", .str "probe_type"), ("kind", .str "categorical"),
    ("source", .str "metadata"), ("value", p),
    ("uncertainty", .dict [("confidence", .float (.fin 1))])]

/-- The `conversion_status` placeholder descriptor literal. -/
def descPlaceholder : PyVal :=
  .dict [("name", .str "conversion_status"), ("kind", .str "categorical"),
    ("source", .str "system"), ("value", .str "minimal_data"),
    ("uncertainty", .dict [("confidence", .float (.fin 1))])]

/-- `context.metadata.get(k)` followed by an `is not None` test. -/
def metaOpt (ctx : MapperContext) (k : String) : Option PyVal :=
  let v := dget ctx.metadata k
  if v.isNone then Option.none else some v

/-- The descriptors block literal around a finished descriptor list. -/
def descriptorsBlock (date_label generated_utc : String)
    (descriptors : List PyVal) : PyVal :=
  .dict [("policy", .dict [("requires_at_least_one", .bool true)]),
    ("outputs", .list [.dict [
      ("label", .str ("automated_extraction_" ++ date_label)),
      ("generated_utc", .str generated_utc),
      ("generated_by", .dict [("agent", .str "nr-isaac-format"),
        ("version", .str "0.1.0")]),
      ("descriptors", .list descriptors)]])]

/-- `DescriptorsMapper.map`: prefers the typed channel when any of its
q fields is populated, else falls back to the legacy metadata bag;
always emits the measurement-geometry descriptor (known or
undetermined), a probe descriptor when declared, and a placeholder when
nothing at all was derived. -/
def descriptors_map (_env : PyEnv) (ctx : MapperContext) : MapResult :=
  let generated_utc := ctx.created_utc.isoStr
  let date_label := ctx.created_utc.dateStr
  let mdata := ctx.measurement_data
  let sel : Option PyVal × Option PyVal × Option PyVal :=
    if mdata.q_min.isSome || mdata.q_max.isSome || mdata.n_points.isSome then
      (mdata.q_min.map .float, mdata.q_max.map .float,
        mdata.n_points.map (fun n => .int (n : ℤ)))
    else
      (metaOpt ctx "q_min", metaOpt ctx "q_max", metaOpt ctx "n_points")
  let q_min := sel.1
  let q_max := sel.2.1
  let n_points := sel.2.2
  let ds1E : Except PyExc (List PyVal) :=
    match q_min with
    | some v =>
      match estimate_q_uncertainty v with
      | .ok unc => .ok [descQRangeMin v unc]
      | .error e => .error e
    | Option.none => .ok []
  match ds1E with
  | .error e => (ctx, .error e)
  | .ok ds1 =>
  let ds2E : Except PyExc (List PyVal) :=
    match q_max with
    | some v =>
      match estimate_q_uncertainty v with
      | .ok unc => .ok [descQRangeMax v unc]
      | .error e => .error e
    | Option.none => .ok []
  match ds2E with
  | .error e => (ctx, .error e)
  | .ok ds2 =>
  let ds3 : List PyVal :=
    match n_points with
    | some v => [descTotalPoints v]
    | Option.none => []
  let geometry := dget ctx.metadata "measurement_geometry"
  let (ctx, ds4) :=
    if geometry.truthy then (ctx, [descGeometry geometry])
    else (addWarning ctx "Measurement geometry could not be determined",
      [descGeometryUndetermined])
  let ds5 : List PyVal :=
    if optDictTruthy ctx.reflectivity then
      let probe := dget (ctx.reflectivity.getD []) "probe"
      if probe.truthy then [descProbeType probe] else []
    else []
  let descriptors := ds1 ++ ds2 ++ ds3 ++ ds4 ++ ds5
  let (ctx, descriptors) :=
    if descriptors.isEmpty then
      (addWarning ctx "No descriptors could be generated", [descPlaceholder])
    else (ctx, descriptors)
  (ctx, .ok (some (descriptorsBlock date_label generated_utc descriptors)))

/-- `DescriptorKind` enum values. -/
def descriptorKindValues : List String :=
  ["absolute", "differential", "categorical", "similarity", "model"]

/-- The per-descriptor required-field-and-kind loop of
`DescriptorsMapper.validate`. -/
def descriptors_validate_each (ctx : MapperContext) (i : ℕ) :
    List PyVal → MapperContext × Bool
  | [] => (ctx, true)
  | d :: rest =>
    let kvs := match d with
      | .dict kvs => kvs
      | _ => []
    if !hasKey kvs "name" then
      (addError ctx ("descriptors[" ++ toString i ++ "].name is required"), false)
    else if !hasKey kvs "kind" then
      (addError ctx ("descriptors[" ++ toString i ++ "].kind is required"), false)
    else if !hasKey kvs "source" then
      (addError ctx ("descriptors[" ++ toString i ++ "].source is required"), false)
    else if !hasKey kvs "value" then
      (addError ctx ("descriptors[" ++ toString i ++ "].value is required"), false)
    else if !hasKey kvs "uncertainty" then
      (addError ctx ("descriptors[" ++ toString i ++ "].uncertainty is required"), false)
    else if !(match dget kvs "kind" with
              | .str s => descriptorKindValues.contains s
              | _ => false) then
      (addError ctx ("descriptors[" ++ toString i ++ "].kind must be one of " ++
        setRepr descriptorKindValues), false)
    else descriptors_validate_each ctx (i + 1) rest

/-- `DescriptorsMapper.validate`. -/
def descriptors_validate (block : PyVal) (ctx : MapperContext) :
    MapperContext × Bool :=
  let kvs := match block with
    | .dict kvs => kvs
    | _ => []
  if !hasKey kvs "outputs" then
    (addError ctx "descriptors.outputs is required", false)
  else
  let outputs := match dgetD kvs "outputs" (.list []) with
    | .list xs => xs
    | _ => []
  if outputs.isEmpty then
    (addError ctx "descriptors.outputs must have at least one output", false)
  else
  let first_output := match outputs.headD .none with
    | .dict kvs => kvs
    | _ => []
  if !hasKey first_output "label" then
    (addError ctx "outputs[0].label is required", false)
  else if !hasKey first_output "generated_utc" then
    (addError ctx "outputs[0].generated_utc is required", false)
  else if !hasKey first_output "generated_by" then
    (addError ctx "outputs[0].generated_by is required", false)
  else if !hasKey first_output "descriptors" then
    (addError ctx "outputs[0].descriptors is required", false)
  else
  let descriptors := match dgetD first_output "descriptors" (.list []) with
    | .list xs => xs
    | _ => []
  if descriptors.isEmpty then
    (addError ctx "outputs[0].descriptors must have at least one descriptor", false)
  else
  descriptors_validate_each ctx 0 descriptors

-- Sample mapper (`mappers/sample.py`).

/-- Python `a or b`. -/
def pyOr (a b : PyVal) : PyVal := if a.truthy then a else b

/-- `SampleMapper._extract_sample_from_reflectivity`. -/
def sample_extract_from_reflectivity (reflectivity : PyDict) : Option PyDict :=
  let sample : PyDict := []
  let sample_name := dget reflectivity "sample_name"
  let sample :=
    if sample_name.truthy then dset sample "main_composition" sample_name else sample
  let sample_desc := dget reflectivity "sample_description"
  let sample :=
    if sample_desc.truthy then dset sample "sample_description" sample_desc else sample
  if sample.isEmpty then Option.none else some sample

/-- `SampleMapper._build_material`. -/
def sample_build_material (s : PyDict) (ctx : MapperContext) :
    MapperContext × PyDict :=
  let main_comp := dget s "main_composition"
  let (ctx, material) :=
    if main_comp.truthy then (ctx, [("name", main_comp), ("formula", main_comp)])
    else (addWarning ctx "Sample main_composition not found",
      [("name", PyVal.str "Unknown"), ("formula", PyVal.str "Unknown")])
  let material := dset material "provenance" (.str "model_fitted")
  let description := pyOr (dget s "description") (dget s "sample_description")
  let material :=
    if description.truthy then dset material "notes" description else material
  (ctx, material)

/-- `SampleMapper._determine_sample_form`: a valid string geometry hint
wins; the layer check and the final default both yield `thin_film`. -/
def sample_determine_form (s : PyDict) : String :=
  let geometry := dget s "geometry"
  match geometry with
  | .str g =>
    if g ≠ "" && sampleFormValues.contains g then g
    else if (dgetD s "layers" (.list [])).truthy then "thin_film" else "thin_film"
  | _ =>
    if (dgetD s "layers" (.list [])).truthy then "thin_film" else "thin_film"

/-- Accumulate one key of the per-material thickness map
(`material_thickness.get(material, 0) + thickness`). -/
def bumpThickness (mt : List (String × PyFloat)) (k : String) (th : PyFloat) :
    List (String × PyFloat) :=
  match mt with
  | [] => [(k, th)]
  | kv :: rest =>
    if kv.1 = k then (k, pyAddF kv.2 th) :: rest else kv :: bumpThickness rest k th

/-- The layer-accumulation loop of `SampleMapper._build_composition`:
skip zero-thickness (ambient) layers, accumulate the running total and
the per-material totals.  Dict keys are modelled through `pyStr`
(layer materials are strings by the input contract). -/
def sample_accumulate_layers (env : PyEnv) :
    List PyVal → PyFloat → List (String × PyFloat) →
    Except PyExc (PyFloat × List (String × PyFloat))
  | [], total, mt => .ok (total, mt)
  | layer :: rest, total, mt =>
    match layer.asDictE with
    | .error e => .error e
    | .ok l =>
      let material := dgetD l "material" (.str "unknown")
      let thickness := dgetD l "thickness" (.int 0)
      if pyEq thickness (.int 0) then
        sample_accumulate_layers env rest total mt
      else
        match thickness.toNumV with
        | Option.none => .error typeErrNum
        | some th =>
          sample_accumulate_layers env rest (pyAddF total th)
            (bumpThickness mt (pyStr material) th)

/-- The fraction loop of `SampleMapper._build_composition`:
`round(thickness / total_thickness, 4)` per material. -/
def sample_fractions (total : PyFloat) :
    List (String × PyFloat) → Except PyExc PyDict
  | [] => .ok []
  | (m, th) :: rest =>
    let ratioF := match total with
      | .fin t => pyDivF th t
      | .pinf => (match th with
        | .fin _ => .fin 0
        | .pinf => .nanv
        | .ninf => .nanv
        | .nanv => .nanv)
      | .ninf => (match th with
        | .fin _ => .fin 0
        | .pinf => .nanv
        | .ninf => .nanv
        | .nanv => .nanv)
      | .nanv => .nanv
    match pyRound4E ratioF with
    | .error e => .error e
    | .ok rounded =>
      match sample_fractions total rest with
      | .error e => .error e
      | .ok restDict =>
        .ok ((m ++ "_thickness_fraction", PyVal.float rounded) :: restDict)

/-- `SampleMapper._build_composition`. -/
def sample_build_composition (env : PyEnv) (s : PyDict) (ctx : MapperContext) :
    MapperContext × Except PyExc (Option PyVal) :=
  let layers := dgetD s "layers" (.list [])
  if !layers.truthy then (ctx, .ok Option.none)
  else
  match layers.asListE with
  | .error e => (ctx, .error e)
  | .ok ls =>
    match sample_accumulate_layers env ls (.fin 0) [] with
    | .error e => (ctx, .error e)
    | .ok (total_thickness, material_thickness) =>
      let compositionE : Except PyExc PyDict :=
        if numGt total_thickness (.fin 0) then
          sample_fractions total_thickness material_thickness
        else .ok []
      match compositionE with
      | .error e => (ctx, .error e)
      | .ok composition =>
        let ctx :=
          if numGt total_thickness (.fin 0) then
            { ctx with
              metadata := dset ctx.metadata "total_thickness_A" (.float total_thickness) }
          else ctx
        if composition.isEmpty then (ctx, .ok Option.none)
        else (ctx, .ok (some (.dict composition)))

/-- The film-layer filter of `SampleMapper._build_geometry`
(`l.get("thickness", 0) > 0`, raising on non-numeric thickness). -/
def sample_film_layers : List PyVal → Except PyExc (List PyVal)
  | [] => .ok []
  | layer :: rest =>
    match layer.asDictE with
    | .error e => .error e
    | .ok l =>
      match pyGtE (dgetD l "thickness" (.int 0)) (.int 0) with
      | .error e => .error e
      | .ok keep =>
        match sample_film_layers rest with
        | .error e => .error e
        | .ok ks => .ok (if keep then layer :: ks else ks)

/-- `SampleMapper._build_geometry`. -/
def sample_build_geometry (s : PyDict) (ctx : MapperContext) :
    Except PyExc (Option PyVal) :=
  let geometry : PyDict := []
  let total_thickness := dget ctx.metadata "total_thickness_A"
  let geometry :=
    if total_thickness.truthy then
      dset geometry "total_thickness_angstrom" total_thickness
    else geometry
  let layers := dgetD s "layers" (.list [])
  match layers.asListE with
  | .error e => .error e
  | .ok ls =>
    match sample_film_layers ls with
    | .error e => .error e
    | .ok film_layers =>
      let geometry :=
        if !film_layers.isEmpty then
          dset geometry "layer_count" (.int (film_layers.length : ℤ))
        else geometry
      if geometry.isEmpty then .ok Option.none else .ok (some (.dict geometry))

/-- `SampleMapper.map`. -/
def sample_map (env : PyEnv) (ctx : MapperContext) : MapResult :=
  let sample : Option PyDict := ctx.sample
  let sample :=
    if !optDictTruthy sample && optDictTruthy ctx.reflectivity then
      sample_extract_from_reflectivity (ctx.reflectivity.getD [])
    else sample
  if !optDictTruthy sample then (ctx, .ok Option.none)
  else
  let s := sample.getD []
  let (ctx, material) := sample_build_material s ctx
  let sample_form := sample_determine_form s
  let result : PyDict := [("sample_form", .str sample_form)]
  -- the source tests `material.get("material_name")`, a key never set
  -- by `_build_material` (which sets "name"), so this test is always
  -- satisfied through `None != "Unknown"`
  let result :=
    if !pyEq (dget material "material_name") (.str "Unknown")
        || (dget material "notes").truthy then
      dset result "material" (.dict material)
    else result
  let description := pyOr (dget s "sample_description") (dget s "description")
  let result :=
    if description.truthy then dset result "sample_description" description
    else result
  match sample_build_composition env s ctx with
  | (ctx, .error e) => (ctx, .error e)
  | (ctx, .ok compositionO) =>
  let result := match compositionO with
    | some c => dset result "composition" c
    | Option.none => result
  match sample_build_geometry s ctx with
  | .error e => (ctx, .error e)
  | .ok geometryO =>
  let result := match geometryO with
    | some g => dset result "geometry" g
    | Option.none => result
  -- `result == {"sample_form": "thin_film"}` (dict equality; `result`
  -- always starts with the sample_form key)
  match result with
  | [("sample_form", .str "thin_film")] => (ctx, .ok Option.none)
  | _ => (ctx, .ok (some (.dict result)))

/-- `SampleMapper.validate`. -/
def sample_validate (block : PyVal) (ctx : MapperContext) :
    MapperContext × Bool :=
  match block with
  | .dict kvs =>
    if !hasKey kvs "sample_form" then
      (addError ctx "sample.sample_form is required", false)
    else (ctx, true)
  | _ => (ctx, true)

-- System mapper (`mappers/system.py`).

/-- `SystemMapper._build_facility`. -/
def system_build_facility (refl : PyDict) (ctx : MapperContext) : Option PyVal :=
  let facility : PyDict := []
  let facility_name := dget refl "facility"
  let facility :=
    if facility_name.truthy then dset facility "facility_name" facility_name
    else facility
  let organization := dget refl "laboratory"
  let facility :=
    if organization.truthy then dset facility "organization" organization
    else if (dget ctx.metadata "organization").truthy then
      -- may have been stored by AcquisitionSourceMapper
      dset facility "organization" (dget ctx.metadata "organization")
    else facility
  let instrument_name := dget refl "instrument_name"
  let facility :=
    if instrument_name.truthy then dset facility "beamline" instrument_name
    else facility
  if facility.isEmpty then Option.none else some (.dict facility)

/-- `SystemMapper._build_instrument`. -/
def system_build_instrument (refl : PyDict) : Option PyVal :=
  let instrument : PyDict := [("instrument_type", .str "beamline_endstation")]
  let instrument_name := dget refl "instrument_name"
  if instrument_name.truthy then
    let instrument := dset instrument "instrument_name" instrument_name
    let laboratory := dget refl "laboratory"
    let instrument :=
      if laboratory.truthy then dset instrument "vendor_or_project" laboratory
      else instrument
    some (.dict instrument)
  else Option.none

/-- `SystemMapper._build_configuration` (must stay flat). -/
def system_build_configuration (refl : PyDict) : Except PyExc PyVal :=
  let refl_data := dgetD refl "reflectivity" (.dict [])
  match refl_data.asDictE with
  | .error e => .error e
  | .ok rd =>
    let config : PyDict := []
    let geometry := dget rd "measurement_geometry"
    let config :=
      if geometry.truthy then dset config "measurement_geometry" geometry else config
    let probe := dget refl "probe"
    let config := if probe.truthy then dset config "probe" probe else config
    let technique := dget refl "technique"
    let config :=
      if technique.truthy then dset config "technique" technique else config
    let technique_desc := dget refl "technique_description"
    let config :=
      if technique_desc.truthy then dset config "technique_description" technique_desc
      else config
    let reduction_version := dget rd "reduction_version"
    let config :=
      if reduction_version.truthy then dset config "reduction_software" reduction_version
      else config
    .ok (.dict config)

/-- `SystemMapper.map`. -/
def system_map (_env : PyEnv) (ctx : MapperContext) : MapResult :=
  if !optDictTruthy ctx.reflectivity then (ctx, .ok Option.none)
  else
  let refl := ctx.reflectivity.getD []
  let is_simulated := dgetD refl "is_simulated" (.bool false)
  let domain := if is_simulated.truthy then "computational" else "experimental"
  let result : PyDict := [("domain", .str domain)]
  let result := match system_build_facility refl ctx with
    | some f => dset result "facility" f
    | Option.none => result
  let result := match system_build_instrument refl with
    | some i => dset result "instrument" i
    | Option.none => result
  match system_build_configuration refl with
  | .error e => (ctx, .error e)
  | .ok configuration =>
    (ctx, .ok (some (.dict (dset result "configuration" configuration))))

/-- `SystemDomain` enum values. -/
def systemDomainValues : List String := ["experimental", "computational"]

/-- The flat-configuration loop of `SystemMapper.validate`. -/
def system_validate_config (ctx : MapperContext) :
    List (String × PyVal) → MapperContext × Bool
  | [] => (ctx, true)
  | (key, value) :: rest =>
    match value with
    | .dict _ =>
      (addError ctx ("system.configuration." ++ key ++ " cannot be a nested object"),
        false)
    | _ => system_validate_config ctx rest

/-- `SystemMapper.validate`. -/
def system_validate (block : PyVal) (ctx : MapperContext) :
    MapperContext × Bool :=
  let kvs := match block with
    | .dict kvs => kvs
    | _ => []
  if !hasKey kvs "domain" then
    (addError ctx "system.domain is required", false)
  else if !(match dget kvs "domain" with
            | .str s => systemDomainValues.contains s
            | _ => false) then
    (addError ctx ("system.domain must be one of " ++ setRepr systemDomainValues),
      false)
  else if !hasKey kvs "configuration" then
    (addError ctx "system.configuration is required", false)
  else
  let config := match dget kvs "configuration" with
    | .dict c => c
    | _ => []
  system_validate_config ctx config

-- Context mapper (`mappers/context.py`).

/-- `ContextMapper._get_environment_string`: ambient medium first, then
the free-text environment description. -/
def context_get_environment_string (ctx : MapperContext) : Option String :=
  if optDictTruthy ctx.environment then
    let e := ctx.environment.getD []
    let ambient := dget e "ambient_medium"
    if ambient.truthy then some (pyStr ambient)
    else
      let desc := dget e "environment_description"
      if desc.truthy then some (pyStr desc) else Option.none
  else Option.none

/-- `ContextMapper._get_temperature`: `float(temp)` when the field is
present (`is not None`); the coercion raises on a non-numeric value. -/
def context_get_temperature (env : PyEnv) (ctx : MapperContext) :
    Except PyExc (Option PyFloat) :=
  if optDictTruthy ctx.environment then
    let e := ctx.environment.getD []
    let temp := dget e "temperature_value_kelvin"
    if temp.isNone then .ok Option.none
    else
      match pyFloatCoerce env temp with
      | some f => .ok (some f)
      | Option.none => .error typeErrNum
  else .ok Option.none

/-- `ContextMapper._build_experiment`. -/
def context_build_experiment (ctx : MapperContext) : Option PyDict :=
  if !optDictTruthy ctx.reflectivity then Option.none
  else
  let refl := ctx.reflectivity.getD []
  let experiment : PyDict := []
  let exp_id := dget refl "experiment_identifier"
  let experiment :=
    if exp_id.truthy then dset experiment "experiment_id" exp_id
    else
      let data_source := dget refl "data_source_id"
      if data_source.truthy then dset experiment "experiment_id" data_source
      else experiment
  let title := dget refl "experiment_title"
  let experiment :=
    if title.truthy then dset experiment "experiment_title" title
    else
      let sample_name := dget refl "sample_name"
      if sample_name.truthy then
        dset experiment "experiment_title" (.str ("Measurement of " ++ pyStr sample_name))
      else experiment
  let acquired := dget refl "acquired_timestamp"
  let experiment :=
    if acquired.truthy then dset experiment "experiment_date" acquired else experiment
  if experiment.isEmpty then Option.none else some experiment

/-- `ContextMapper._build_notes`: non-empty description fragments joined
with "; ". -/
def context_build_notes (ctx : MapperContext) : Option String :=
  let notes_parts : List String := []
  let notes_parts :=
    if optDictTruthy ctx.reflectivity then
      let refl := ctx.reflectivity.getD []
      let comment := dget refl "sample_description"
      let notes_parts :=
        if comment.truthy then notes_parts ++ ["Sample: " ++ pyStr comment]
        else notes_parts
      let technique_desc := dget refl "technique_description"
      if technique_desc.truthy then notes_parts ++ ["Technique: " ++ pyStr technique_desc]
      else notes_parts
    else notes_parts
  let notes_parts :=
    if optDictTruthy ctx.environment then
      let e := ctx.environment.getD []
      let env_comment := dget e "environment_description"
      if env_comment.truthy then notes_parts ++ ["Environment: " ++ pyStr env_comment]
      else notes_parts
    else notes_parts
  if notes_parts.isEmpty then Option.none
  else some (String.intercalate "; " notes_parts)

/-- The (source key, output key) pairs of
`ContextMapper._build_extra_conditions`. -/
def contextExtraFields : List (String × String) :=
  [("magnetic_field_value_tesla", "magnetic_field_T"),
   ("electric_field_value_v_per_m", "electric_field_V_per_m"),
   ("pressure_value_pa", "pressure_Pa"),
   ("humidity_value_percent", "humidity_percent"),
   ("ph_value", "pH")]

/-- The per-field loop of `ContextMapper._build_extra_conditions`:
each field is independently optional; `float()` raises on a present
non-numeric value. -/
def context_extra_go (env : PyEnv) (e : PyDict) (extra : PyDict) :
    List (String × String) → Except PyExc PyDict
  | [] => .ok extra
  | (srcKey, dstKey) :: rest =>
    let v := dget e srcKey
    if v.isNone then context_extra_go env e extra rest
    else
      match pyFloatCoerce env v with
      | some f => context_extra_go env e (dset extra dstKey (.float f)) rest
      | Option.none => .error typeErrNum

/-- `ContextMapper._build_extra_conditions`. -/
def context_build_extra_conditions (env : PyEnv) (ctx : MapperContext) :
    Except PyExc (Option PyDict) :=
  if !optDictTruthy ctx.environment then .ok Option.none
  else
    match context_extra_go env (ctx.environment.getD []) [] contextExtraFields with
    | .error e => .error e
    | .ok extra =>
      if extra.isEmpty then .ok Option.none else .ok (some extra)

/-- `ContextMapper.map`: the block is returned only when both the
environment string and the temperature could be provided. -/
def context_map (env : PyEnv) (ctx : MapperContext) : MapResult :=
  let result : PyDict := []
  let env_str := context_get_environment_string ctx
  let result := match env_str with
    | some s => if s ≠ "" then dset result "environment" (.str s) else result
    | Option.none => result
  match context_get_temperature env ctx with
  | .error e => (ctx, .error e)
  | .ok tempO =>
  let result := match tempO with
    | some f => dset result "temperature_K" (.float f)
    | Option.none => result
  if !hasKey result "environment" || !hasKey result "temperature_K" then
    (ctx, .ok Option.none)
  else
  let result := match context_build_experiment ctx with
    | some ex => dupdate result ex
    | Option.none => result
  let result := match context_build_notes ctx with
    | some notes => dset result "notes" (.str notes)
    | Option.none => result
  match context_build_extra_conditions env ctx with
  | .error e => (ctx, .error e)
  | .ok extraO =>
  let result := match extraO with
    | some ex => dupdate result ex
    | Option.none => result
  (ctx, .ok (some (.dict result)))

/-- `ContextMapper.validate`: `environment` must be a string and
`temperature_K` a number (Python bools are int instances and count). -/
def context_validate (block : PyVal) (ctx : MapperContext) :
    MapperContext × Bool :=
  let kvs := match block with
    | .dict kvs => kvs
    | _ => []
  if !hasKey kvs "environment" then
    (addError ctx "context.environment is required", false)
  else if !(match dget kvs "environment" with
            | .str _ => true
            | _ => false) then
    (addError ctx "context.environment must be a string", false)
  else if !hasKey kvs "temperature_K" then
    (addError ctx "context.temperature_K is required", false)
  else if !(match dget kvs "temperature_K" with
            | .int _ => true
            | .float _ => true
            | .bool _ => true
            | _ => false) then
    (addError ctx "context.temperature_K must be a number", false)
  else (ctx, true)

-- Assets mapper (`mappers/assets.py`).

/-- Python string slicing `s[:n]` (by characters). -/
def strTake (s : String) (n : ℕ) : String := (s.data.take n).asString

/-- Python string slicing `s[n:]` (by characters). -/
def strDrop (s : String) (n : ℕ) : String := (s.data.drop n).asString

/-- Python `s.startswith(p)`. -/
def strStarts (s p : String) : Bool := p.data.isPrefixOf s.data

/-- `AssetsMapper._compute_sha256`: the real streamed digest of the
file bytes when the path (with any `file://` scheme stripped) is an
existing readable regular file; otherwise the deterministic placeholder
`"000000"` followed by characters 6..63 of the hex SHA-256 of the
original path string. -/
def compute_sha256 (env : PyEnv) (path : String) : String :=
  let file_path := if strStarts path "file://" then strDrop path 7 else path
  match env.readFile file_path with
  | some bytes => env.sha256hex bytes
  | Option.none =>
    let path_hash := env.sha256hex (env.encodeUtf8 path)
    "000000" ++ strDrop path_hash 6

/-- `AssetsMapper._path_to_uri`: recognized schemes pass through,
absolute POSIX paths get `file://` prepended, relative paths are first
made absolute. -/
def path_to_uri (env : PyEnv) (path : String) : String :=
  if strStarts path "file://" || strStarts path "http://"
      || strStarts path "https://" || strStarts path "s3://" then path
  else if strStarts path "/" then "file://" ++ path
  else "file://" ++ env.absPath path

/-- The extension table of `AssetsMapper._infer_format`. -/
def assetFormatMap : List (String × String) :=
  [(".nxs", "NeXus"), (".nx", "NeXus"), (".hdf5", "HDF5"), (".hdf", "HDF5"),
   (".h5", "HDF5"), (".ort", "ORSO text reflectivity"),
   (".orb", "ORSO binary reflectivity"), (".txt", "text"), (".csv", "CSV"),
   (".json", "JSON"), (".xml", "XML"), (".dat", "data"),
   (".parquet", "Parquet")]

/-- The extension of `os.path.splitext(path)[1]`: the part of the final
path component from its last dot, empty when the component has no dot or
consists only of leading dots (e.g. `.bashrc`). -/
def splitextExt (path : String) : String :=
  let comp := (path.data.reverse.takeWhile (fun c => c ≠ '/')).reverse
  let stem := comp.dropWhile (fun c => c = '.')
  if stem.contains '.' then
    ('.' :: (stem.reverse.takeWhile (fun c => c ≠ '.')).reverse).asString
  else ""

/-- `AssetsMapper._infer_format`. -/
def infer_format (path : String) : Option String :=
  let ext := splitextExt path.toLower
  (assetFormatMap.find? (fun kv => kv.1 == ext)).map (fun kv => kv.2)

/-- Zero-padded 3-digit rendering (`f"{n:03d}"`). -/
def pad3 (n : ℕ) : String :=
  if n < 10 then "00" ++ toString n
  else if n < 100 then "0" ++ toString n
  else toString n

/-- `AssetsMapper._build_asset` (raises at the first string operation
when the discovered path value is not a string). -/
def build_asset (env : PyEnv) (path_v : PyVal) (content_role : String)
    (asset_num : ℕ) (record_id : String) (description : String) :
    Except PyExc PyVal :=
  match path_v.asStrE with
  | .error e => .error e
  | .ok path =>
    let asset_id := record_id ++ "-A" ++ pad3 asset_num
    let uri := path_to_uri env path
    let sha256 := compute_sha256 env path
    let asset : PyDict := [("asset_id", .str asset_id),
      ("content_role", .str content_role), ("uri", .str uri),
      ("sha256", .str sha256)]
    let asset := match infer_format path with
      | some file_format => dset asset "format" (.str file_format)
      | Option.none => asset
    .ok (.dict (dset asset "description" (.str description)))

/-- `AssetsMapper.map`: discovers file references in a fixed order with
a monotonically increasing asset counter. -/
def assets_map (env : PyEnv) (ctx : MapperContext) : MapResult :=
  let assets : List PyVal := []
  let counter : ℕ := 0
  -- reflectivity file references
  let reflStep : Except PyExc (List PyVal × ℕ × PyVal × PyVal) :=
    if optDictTruthy ctx.reflectivity then
      let refl := ctx.reflectivity.getD []
      let raw_file := dget refl "raw_file_path"
      let step1 : Except PyExc (List PyVal × ℕ) :=
        if raw_file.truthy then
          match build_asset env raw_file "raw_data_pointer" (counter + 1)
              ctx.record_id "Raw measurement data file" with
          | .error e => .error e
          | .ok a => .ok (assets ++ [a], counter + 1)
        else .ok (assets, counter)
      match step1 with
      | .error e => .error e
      | .ok (assets, counter) =>
        let reduced_file := dget refl "reduced_file"
        let step2 : Except PyExc (List PyVal × ℕ) :=
          if reduced_file.truthy then
            match build_asset env reduced_file "reduction_product" (counter + 1)
                ctx.record_id "Reduced reflectivity data" with
            | .error e => .error e
            | .ok a => .ok (assets ++ [a], counter + 1)
          else .ok (assets, counter)
        match step2 with
        | .error e => .error e
        | .ok (assets, counter) =>
          let refl_data := dgetD refl "reflectivity" (.dict [])
          match refl_data.asDictE with
          | .error e => .error e
          | .ok rd =>
            let source_file := dget rd "source_file"
            if source_file.truthy && !pyEq source_file raw_file
                && !pyEq source_file reduced_file then
              match build_asset env source_file "reduction_product" (counter + 1)
                  ctx.record_id "Reflectivity data source file" with
              | .error e => .error e
              | .ok a => .ok (assets ++ [a], counter + 1, raw_file, reduced_file)
            else .ok (assets, counter, raw_file, reduced_file)
    else .ok (assets, counter, .none, .none)
  match reflStep with
  | .error e => (ctx, .error e)
  | .ok (assets, counter, _, _) =>
  -- sample file references
  let sampleStep : Except PyExc (List PyVal × ℕ) :=
    if optDictTruthy ctx.sample then
      let sample_file := dget (ctx.sample.getD []) "sample_file"
      if sample_file.truthy then
        match build_asset env sample_file "metadata_snapshot" (counter + 1)
            ctx.record_id "Sample definition file" with
        | .error e => .error e
        | .ok a => .ok (assets ++ [a], counter + 1)
      else .ok (assets, counter)
    else .ok (assets, counter)
  match sampleStep with
  | .error e => (ctx, .error e)
  | .ok (assets, counter) =>
  -- environment file references
  let envStep : Except PyExc (List PyVal) :=
    if optDictTruthy ctx.environment then
      let env_file := dget (ctx.environment.getD []) "environment_file"
      if env_file.truthy then
        match build_asset env env_file "metadata_snapshot" (counter + 1)
            ctx.record_id "Environment configuration file" with
        | .error e => .error e
        | .ok a => .ok (assets ++ [a])
      else .ok assets
    else .ok assets
  match envStep with
  | .error e => (ctx, .error e)
  | .ok assets =>
    if assets.isEmpty then (ctx, .ok Option.none)
    else (ctx, .ok (some (.list assets)))

/-- `ContentRole` enum values. -/
def contentRoleValues : List String :=
  ["raw_data_pointer", "reduction_product", "processing_recipe",
   "input_structure", "metadata_snapshot", "supplementary_image", "other"]

/-- The per-asset loop of `AssetsMapper.validate`. -/
def assets_validate_each (ctx : MapperContext) (i : ℕ) :
    List PyVal → MapperContext × Bool
  | [] => (ctx, true)
  | a :: rest =>
    let kvs := match a with
      | .dict kvs => kvs
      | _ => []
    if !hasKey kvs "asset_id" then
      (addError ctx ("assets[" ++ toString i ++ "].asset_id is required"), false)
    else if !hasKey kvs "content_role" then
      (addError ctx ("assets[" ++ toString i ++ "].content_role is required"), false)
    else if !(match dget kvs "content_role" with
              | .str s => contentRoleValues.contains s
              | _ => false) then
      (addError ctx ("assets[" ++ toString i ++ "].content_role must be one of " ++
        setRepr contentRoleValues), false)
    else if !hasKey kvs "uri" then
      (addError ctx ("assets[" ++ toString i ++ "].uri is required"), false)
    else if !hasKey kvs "sha256" then
      (addError ctx ("assets[" ++ toString i ++ "].sha256 is required"), false)
    else assets_validate_each ctx (i + 1) rest

/-- `AssetsMapper.validate`. -/
def assets_validate (block : PyVal) (ctx : MapperContext) :
    MapperContext × Bool :=
  match block with
  | .list xs => assets_validate_each ctx 0 xs
  | _ => (addError ctx "assets must be an array", false)

-- Links mapper (`mappers/links.py`).

/-- `LinksMapper.map`: pure field-presence mapping; no registry. -/
def links_map (_env : PyEnv) (ctx : MapperContext) : MapResult :=
  let links : List PyVal := []
  let links :=
    if optDictTruthy ctx.reflectivity then
      let refl := ctx.reflectivity.getD []
      let parent_id := dget refl "parent_record_id"
      let links :=
        if parent_id.truthy then
          links ++ [.dict [("link_type", .str "derived_from"),
            ("target_record_id", parent_id),
            ("description", .str "Derived from source record")]]
        else links
      let collection_id := dget refl "collection_id"
      let links :=
        if collection_id.truthy then
          links ++ [.dict [("link_type", .str "part_of"),
            ("target_record_id", collection_id),
            ("description", .str "Part of measurement series")]]
        else links
      let doi := dget refl "doi"
      if doi.truthy then
        links ++ [.dict [("link_type", .str "cites"),
          ("target_record_id", doi),
          ("description", .str "Associated publication DOI")]]
      else links
    else links
  let links :=
    if optDictTruthy ctx.sample then
      let sample_id := dget (ctx.sample.getD []) "sample_record_id"
      if sample_id.truthy then
        links ++ [.dict [("link_type", .str "related_to"),
          ("target_record_id", sample_id),
          ("description", .str "Related sample record")]]
      else links
    else links
  if links.isEmpty then (ctx, .ok Option.none)
  else (ctx, .ok (some (.list links)))

/-- `LinkType` enum values. -/
def linkTypeValues : List String :=
  ["derived_from", "part_of", "related_to", "supersedes", "cites", "references"]

/-- The per-link loop of `LinksMapper.validate` (unrecognized link
types only warn). -/
def links_validate_each (ctx : MapperContext) (i : ℕ) :
    List PyVal → MapperContext × Bool
  | [] => (ctx, true)
  | l :: rest =>
    let kvs := match l with
      | .dict kvs => kvs
      | _ => []
    if !hasKey kvs "link_type" then
      (addError ctx ("links[" ++ toString i ++ "].link_type is required"), false)
    else
      let lt := dget kvs "link_type"
      let ctx :=
        if !(match lt with
             | .str s => linkTypeValues.contains s
             | _ => false) then
          addWarning ctx ("links[" ++ toString i ++ "].link_type " ++ sQuote ++
            pyStr lt ++ sQuote ++ " may not be recognized")
        else ctx
      if !hasKey kvs "target_record_id" then
        (addError ctx ("links[" ++ toString i ++ "].target_record_id is required"),
          false)
      else links_validate_each ctx (i + 1) rest

/-- `LinksMapper.validate`. -/
def links_validate (block : PyVal) (ctx : MapperContext) :
    MapperContext × Bool :=
  match block with
  | .list xs => links_validate_each ctx 0 xs
  | _ => (addError ctx "links must be an array", false)

-- Converter (`converter.py`).

/-- One entry of `ConversionResult.error_details`. -/
structure ErrorDetail where
  mapper : String
  error : String
  type : String
  traceback : String
deriving Repr, DecidableEq

/-- `ConversionResult`. -/
structure ConversionResult where
  record : PyVal
  record_id : String
  warnings : List String
  errors : List String
  is_valid : Bool
  error_details : List ErrorDetail

/-- The default mapper instances, in the fixed processing order of
`IsaacRecordConverter._default_mappers`. -/
def timestampsMapper : MapperM :=
  ⟨"timestamps", true, timestamps_map, timestamps_validate⟩

/-- `AcquisitionSourceMapper` as a converter entry. -/
def acquisitionSourceMapper : MapperM :=
  ⟨"acquisition_source", true, acquisition_source_map, acquisition_source_validate⟩

/-- `MeasurementMapper` as a converter entry (optional in the schema). -/
def measurementMapper : MapperM :=
  ⟨"measurement", false, measurement_map, measurement_validate⟩

/-- `DescriptorsMapper` as a converter entry (required for evidence). -/
def descriptorsMapper : MapperM :=
  ⟨"descriptors", true, descriptors_map, descriptors_validate⟩

/-- `SampleMapper` as a converter entry. -/
def sampleMapper : MapperM := ⟨"sample", false, sample_map, sample_validate⟩

/-- `SystemMapper` as a converter entry. -/
def systemMapper : MapperM := ⟨"system", false, system_map, system_validate⟩

/-- `ContextMapper` as a converter entry. -/
def contextMapper : MapperM := ⟨"context", false, context_map, context_validate⟩

/-- `AssetsMapper` as a converter entry. -/
def assetsMapper : MapperM := ⟨"assets", false, assets_map, assets_validate⟩

/-- `LinksMapper` as a converter entry. -/
def linksMapper : MapperM := ⟨"links", false, links_map, links_validate⟩

/-- `IsaacRecordConverter._default_mappers()`: the order is significant
(Measurement publishes what Descriptors consumes; AcquisitionSource
publishes what System may consume). -/
def default_mappers : List MapperM :=
  [timestampsMapper, acquisitionSourceMapper, measurementMapper,
   descriptorsMapper, sampleMapper, systemMapper, contextMapper,
   assetsMapper, linksMapper]

/-- Converter configuration: the `validate_output` flag and the schema
validation adapter (`_validate_schema`, which returns `[]` when the
record passes, or when no validator/schema is available). -/
structure ConverterConfig where
  validate_output : Bool
  schemaCheck : PyVal → List String

/-- The state threaded through the converter's mapper loop: the record
under construction, the mapper context, and the collected
`error_details`. -/
structure ConvState where
  record : PyDict
  ctx : MapperContext
  details : List ErrorDetail

/-- One iteration of the converter's mapper loop: run `map` inside the
isolation boundary; on a block, run `validate` (a false result is only
logged) and store the block under the mapper's block name; on None,
record an error when the block is required; on an exception, record a
context error and one structured diagnostic and continue. -/
def runMapperStep (env : PyEnv) (st : ConvState) (m : MapperM) : ConvState :=
  match m.map env st.ctx with
  | (ctx, .ok (some block)) =>
    let (ctx, _valid) := m.validate block ctx
    { st with record := dset st.record m.block_name block, ctx := ctx }
  | (ctx, .ok Option.none) =>
    if m.is_required then
      { st with ctx := addError ctx ("Required block " ++ sQuote ++ m.block_name ++
          sQuote ++ " returned None") }
    else { st with ctx := ctx }
  | (ctx, .error e) =>
    { st with
      ctx := addError ctx ("Mapper " ++ m.block_name ++ " failed: " ++ e.msg),
      details := st.details ++ [⟨m.block_name, e.msg, e.kind, e.trace⟩] }

/-- The converter's mapper loop. -/
def runMappers (env : PyEnv) (ms : List MapperM) (st : ConvState) : ConvState :=
  ms.foldl (runMapperStep env) st

/-- The initial conversion state: a fresh context and the record seeded
with the four root scalar fields. -/
def initState (source : AssemblyResult) (record_id : String)
    (timestamp : DatetimeV) : ConvState :=
  { record := [("record_id", .str record_id),
      ("isaac_record_version", .str "1.0"),
      ("record_type", .str "evidence"),
      ("record_domain", .str "characterization")],
    ctx := { result := source, record_id := record_id, created_utc := timestamp },
    details := [] }

/-- The tail of `IsaacRecordConverter.convert`: optional schema
validation (failures are appended to the context errors) and assembly
of the `ConversionResult`
(`is_valid = is_valid and not context.has_errors`). -/
def finishConversion (cfg : ConverterConfig) (record_id : String)
    (st : ConvState) : ConversionResult :=
  let record : PyVal := .dict st.record
  let (errors, schema_ok) :=
    if cfg.validate_output then
      let schema_errors := cfg.schemaCheck record
      if !schema_errors.isEmpty then (st.ctx.errors ++ schema_errors, false)
      else (st.ctx.errors, true)
    else (st.ctx.errors, true)
  { record := record, record_id := record_id, warnings := st.ctx.warnings,
    errors := errors, is_valid := schema_ok && errors.isEmpty,
    error_details := st.details }

/-- `IsaacRecordConverter.convert` over an explicit mapper list
(`self.mappers`): resolve the timestamp from the injected clock, resolve
or generate the record id, then run the loop and finish. -/
def convertWith (env : PyEnv) (cfg : ConverterConfig) (mappers : List MapperM)
    (source : AssemblyResult) (record_idO : Option String)
    (timestampO : Option DatetimeV) : ConversionResult :=
  let timestamp := timestampO.getD env.now
  let record_id := record_idO.getD (generate_ulid timestamp.ms env.rand)
  finishConversion cfg record_id
    (runMappers env mappers (initState source record_id timestamp))

/-- `IsaacRecordConverter.convert` with the default mappers. -/
def convert (env : PyEnv) (cfg : ConverterConfig) (source : AssemblyResult)
    (record_idO : Option String) (timestampO : Option DatetimeV) :
    ConversionResult :=
  convertWith env cfg default_mappers source record_idO timestampO

-- Null-stripping serialization (`_remove_nulls`, `to_json`).

mutual
/-- `_remove_nulls`: recursively drop dict entries whose value is None;
list elements are recursed into but never removed. -/
def remove_nulls : PyVal → PyVal
  | .dict kvs => .dict (remove_nulls_kvs kvs)
  | .list xs => .list (remove_nulls_list xs)
  | v => v

/-- The dict comprehension of `_remove_nulls`
(`{k: rec(v) for k, v in obj.items() if v is not None}`). -/
def remove_nulls_kvs : List (String × PyVal) → List (String × PyVal)
  | [] => []
  | (k, v) :: rest =>
    if v.isNone then remove_nulls_kvs rest
    else (k, remove_nulls v) :: remove_nulls_kvs rest

/-- The list comprehension of `_remove_nulls`
(`[rec(item) for item in obj]`). -/
def remove_nulls_list : List PyVal → List PyVal
  | [] => []
  | x :: xs => remove_nulls x :: remove_nulls_list xs
end

/-- `ConversionResult.to_json`, with `json.dumps` abstracted as a
serialization oracle over the (optionally null-stripped) record and the
indent option. -/
def to_json (dumps : PyVal → Option ℕ → String) (r : ConversionResult)
    (indent : Option ℕ) (include_nulls : Bool) : String :=
  let record := if include_nulls then r.record else remove_nulls r.record
  dumps record indent

/-- `IsaacRecordConverter.write_json` applies the same null-stripping
choice before serializing to the output file. -/
def write_json_payload (dumps : PyVal → Option ℕ → String)
    (r : ConversionResult) (indent : Option ℕ) (include_nulls : Bool) : String :=
  let record := if include_nulls then r.record else remove_nulls r.record
  dumps record indent

/-- The lowercase hex digits of a `hexdigest`. -/
def hexDigitChars : List Char := "0123456789abcdef".data

/-- A fixed 64-character lowercase-hex digest for witness oracles. -/
def fixtureDigest : String := (List.replicate 64 'a').asString

/-- A concrete oracle environment for witnesses: epoch clock, failing
parsers, zero randomness, a constant digest, an empty filesystem. -/
def fixtureEnv : PyEnv :=
  { now := ⟨0, "1970-01-01T00:00:00Z", "1970-01-01"⟩,
    parseIso := fun _ => Option.none,
    parseFloat := fun _ => Option.none,
    rand := fun _ => 0,
    sha256hex := fun _ => fixtureDigest,
    encodeUtf8 := fun _ => [],
    readFile := fun _ => Option.none,
    absPath := fun p => p }

/-- The empty source record (all blocks absent). -/
def emptySource : AssemblyResult :=
  ⟨Option.none, Option.none, Option.none, [], []⟩

/-- Converter configuration with schema validation disabled. -/
def cfgNoValidate : ConverterConfig := ⟨false, fun _ => []⟩

/-- The epoch instant, used as an injected conversion timestamp. -/
def t0 : DatetimeV := ⟨0, "1970-01-01T00:00:00Z", "1970-01-01"⟩

/-- A mapper whose `map` raises (a stand-in for a mapper hitting, e.g.,
a malformed sample layer entry). -/
def failingSampleMapper : MapperM :=
  ⟨"sample", false, fun _ c => (c, .error ⟨"boom", "ValueError", "tb"⟩),
    fun _ c => (c, true)⟩

/-- Lookup of a key in a (dict-valued) record node. -/
def jGet : PyVal → String → Option PyVal
  | .dict kvs, k => dlookup kvs k
  | _, _ => Option.none

/-- Index into a (list-valued) record node. -/
def jAt : PyVal → ℕ → Option PyVal
  | .list xs, i => xs.get? i
  | _, _ => Option.none

/-- A minimal source: q and r arrays only (spec scenarios A and 2). -/
def srcMinimal : AssemblyResult :=
  { reflectivity := some [("reflectivity", .dict
      [("q", .list [.float (.fin (1/100)), .float (.fin (1/50)),
        .float (.fin (3/100))]),
       ("r", .list [.float (.fin 1), .float (.fin (1/2)),
        .float (.fin (1/10))])])],
    sample := Option.none, environment := Option.none,
    warnings := [], errors := [] }


/-- The nested reflectivity dict of the minimal fixture. -/
def rdFixture : PyDict :=
  [("q", .list (((1/100 : ℚ) :: [(1/50 : ℚ), (3/100 : ℚ)]).map
    (fun a => PyVal.float (.fin a)))),
   ("r", .list (PyVal.float (.fin 1) ::
    [PyVal.float (.fin (1/2)), PyVal.float (.fin (1/10))]))]

/-- The minimal fixture source around `rdFixture`. -/
def srcFixture : AssemblyResult :=
  { reflectivity := some [("reflectivity", .dict rdFixture)],
    sample := Option.none, environment := Option.none,
    warnings := [], errors := [] }

/-- A concrete mapper context around the minimal fixture source. -/
def ctxFixture : MapperContext :=
  { result := srcFixture, record_id := "RID", created_utc := t0 }

/-- The scenario-B source: ambient medium but no temperature field. -/
def srcC8 : AssemblyResult :=
  { reflectivity := Option.none, sample := Option.none,
    environment := some [("ambient_medium", .str "air")],
    warnings := [], errors := [] }


/-- The state of the q channel that keeps `DescriptorsMapper.map` total
inside `convert`: either nothing has been published (typed fields unset
and the legacy metadata keys absent, so the fallback read yields
nothing) or the typed channel is populated (so the typed read is
taken).  Every state reachable in the default mapper pipeline before
the Descriptors step satisfies it. -/
def DescOkInv (ctx : MapperContext) : Prop :=
  (ctx.measurement_data.q_min = Option.none ∧
   ctx.measurement_data.q_max = Option.none ∧
   ctx.measurement_data.n_points = Option.none ∧
   (dget ctx.metadata "q_min").isNone = true ∧
   (dget ctx.metadata "q_max").isNone = true ∧
   (dget ctx.metadata "n_points").isNone = true) ∨
  (ctx.measurement_data.q_min.isSome = true ∨
   ctx.measurement_data.q_max.isSome = true ∨
   ctx.measurement_data.n_points.isSome = true)

-- Generic lemmas about the dict model.

/-- `dset` leaves every other key alone. -/
theorem dlookup_dset_ne (d : PyDict) (k k2 : String) (v : PyVal) (h : k ≠ k2) :
    dlookup (dset d k v) k2 = dlookup d k2 := by
  have hbek : (k == k2) = false := by simp [h]
  induction d with
  | nil => simp [dset, dlookup, List.find?, hbek]
  | cons kv rest ih =>
    by_cases hk : kv.1 = k
    · simp only [dset, if_pos hk, dlookup, List.find?, hbek]
      have hbe : (kv.1 == k2) = false := by simp [hk, h]
      simp [hbe, hk, hbek]
    · simp only [dset, if_neg hk, dlookup, List.find?]
      by_cases he : kv.1 = k2
      · simp [he]
      · have hbe : (kv.1 == k2) = false := by simp [he]
        simp only [hbe]
        exact ih

/-- `dset` stores the value under its key. -/
theorem dlookup_dset_eq (d : PyDict) (k : String) (v : PyVal) :
    dlookup (dset d k v) k = some v := by
  induction d with
  | nil => simp [dset, dlookup, List.find?]
  | cons kv rest ih =>
    by_cases hk : kv.1 = k
    · simp [dset, hk, dlookup, List.find?]
    · have : (kv.1 == k) = false := by simp [hk]
      simp [dset, hk, dlookup, List.find?, this]
      exact ih

/-- `dset` never removes a present key. -/
theorem hasKey_dset_of_hasKey (d : PyDict) (k k2 : String) (v : PyVal)
    (h : hasKey d k2 = true) : hasKey (dset d k v) k2 = true := by
  by_cases he : k = k2
  · subst he
    simp [hasKey, dlookup_dset_eq]
  · simpa [hasKey, dlookup_dset_ne d k k2 v he] using h

/-- `dupdate` never removes a present key. -/
theorem hasKey_dupdate_of_hasKey (d2 d : PyDict) (k : String)
    (h : hasKey d k = true) : hasKey (dupdate d d2) k = true := by
  induction d2 generalizing d with
  | nil => simpa [dupdate] using h
  | cons kv rest ih =>
    simp only [dupdate, List.foldl] at *
    exact ih (dset d kv.1 kv.2) (hasKey_dset_of_hasKey d kv.1 k kv.2 h)

/-- C4: numeric sanitization.  For every value in an emitted array:
a value exposing `.item()` is unwrapped first (so a wrapped int stays
an int and a wrapped float is treated like that float), integers stay
integers, every other finite value converts to a 64-bit float, and NaN
and ±Infinity become null; in particular the concrete r array
`[1.0, nan, 0.5, inf, 0.1]` converts elementwise to
`[1.0, null, 0.5, null, 0.1]`, and sanitization always preserves array
length. -/
theorem measurement_numeric_sanitization (env : PyEnv) :
    (∀ n : ℤ, to_native_type env (.wrapped (.int n)) = .int n) ∧
    (∀ f : PyFloat,
      to_native_type env (.wrapped (.float f)) = to_native_type env (.float f)) ∧
    (∀ n : ℤ, to_native_type env (.int n) = .int n) ∧
    (∀ q : ℚ, to_native_type env (.float (.fin q)) = .float (.fin q)) ∧
    to_native_type env (.float .nanv) = .none ∧
    to_native_type env (.float .pinf) = .none ∧
    to_native_type env (.float .ninf) = .none ∧
    ensure_native_types env
        [.float (.fin 1), .float .nanv, .float (.fin (1/2)), .float .pinf,
         .float (.fin (1/10))] =
      [.float (.fin 1), .none, .float (.fin (1/2)), .none, .float (.fin (1/10))] ∧
    (∀ xs : List PyVal, (ensure_native_types env xs).length = xs.length) := by
  refine ⟨fun n => rfl, fun f => ?_, fun n => rfl, fun q => rfl, rfl, rfl, rfl, rfl,
    fun xs => ?_⟩
  · cases f <;> rfl
  · simp [ensure_native_types]

/-- C10: the default null-stripping serialization.  `_remove_nulls`
(applied by `to_json` and `write_json` when `include_nulls` is false)
removes exactly the dict entries whose value is null, recursively, and
maps over lists elementwise without removing anything: every list keeps
its exact length, every position maps to the sanitization of the
original element, and a null element stays null at its position. -/
theorem remove_nulls_shape (dumps : PyVal → Option ℕ → String) :
    (∀ xs, remove_nulls (.list xs) = .list (xs.map remove_nulls)) ∧
    (∀ xs, (remove_nulls_list xs).length = xs.length) ∧
    (∀ xs (i : ℕ), (remove_nulls_list xs).get? i = (xs.get? i).map remove_nulls) ∧
    remove_nulls .none = .none ∧
    (∀ kvs, remove_nulls (.dict kvs) =
      .dict ((kvs.filter (fun kv => !kv.2.isNone)).map
        (fun kv => (kv.1, remove_nulls kv.2)))) ∧
    (∀ r ind, to_json dumps r ind false = dumps (remove_nulls r.record) ind) ∧
    (∀ r ind,
      write_json_payload dumps r ind false = dumps (remove_nulls r.record) ind) := by
  have hmap : ∀ xs, remove_nulls_list xs = xs.map remove_nulls := by
    intro xs
    induction xs with
    | nil => rfl
    | cons x rest ih => simp [remove_nulls_list, ih]
  refine ⟨fun xs => ?_, fun xs => ?_, fun xs i => ?_, rfl, fun kvs => ?_,
    fun r ind => rfl, fun r ind => rfl⟩
  · simp [remove_nulls, hmap]
  · simp [hmap]
  · simp [hmap]
  · rw [remove_nulls]
    congr 1
    induction kvs with
    | nil => rfl
    | cons kv rest ih =>
      by_cases h : kv.2.isNone
      · simp [remove_nulls_kvs, h, ih]
      · simp only [remove_nulls_kvs, h, if_neg]
        simp [h, ih]

/-- `String.append` acts as append on the underlying character lists. -/
theorem strdata_append (a b : String) : (a ++ b).data = a.data ++ b.data := by
  cases a; cases b; rfl

/-- C6: placeholder asset hashing.  With a digest oracle that returns
64 lowercase hex characters (the contract of
`hashlib.sha256(..).hexdigest()`): for an unreachable/unreadable path,
`_compute_sha256` returns exactly the 6-character marker `"000000"`
followed by characters 6 through 63 of the hex SHA-256 of the path
string — 64 hex characters in total, deterministic per path — and for
a reachable readable file it returns the digest of the file's bytes. -/
theorem compute_sha256_spec (env : PyEnv) (path : String)
    (hlen : ∀ bs, (env.sha256hex bs).length = 64)
    (hhex : ∀ bs, (env.sha256hex bs).data.all (fun c => hexDigitChars.contains c) = true) :
    (env.readFile (if strStarts path "file://" then strDrop path 7 else path) =
        Option.none →
      compute_sha256 env path =
        "000000" ++ strDrop (env.sha256hex (env.encodeUtf8 path)) 6 ∧
      strTake (compute_sha256 env path) 6 = "000000" ∧
      strDrop (compute_sha256 env path) 6 =
        strDrop (env.sha256hex (env.encodeUtf8 path)) 6 ∧
      (compute_sha256 env path).length = 64 ∧
      (compute_sha256 env path).data.all (fun c => hexDigitChars.contains c) = true) ∧
    (∀ bytes,
      env.readFile (if strStarts path "file://" then strDrop path 7 else path) =
          some bytes →
      compute_sha256 env path = env.sha256hex bytes) := by
  constructor
  · intro hmiss
    have heq : compute_sha256 env path =
        "000000" ++ strDrop (env.sha256hex (env.encodeUtf8 path)) 6 := by
      simp only [compute_sha256, hmiss]
    have hdata : (compute_sha256 env path).data =
        ("000000" : String).data ++ (env.sha256hex (env.encodeUtf8 path)).data.drop 6 := by
      rw [heq, strdata_append]; rfl
    have h6 : (("000000" : String).data).length = 6 := rfl
    have h64 : (env.sha256hex (env.encodeUtf8 path)).data.length = 64 :=
      hlen (env.encodeUtf8 path)
    refine ⟨heq, ?_, ?_, ?_, ?_⟩
    · show ((compute_sha256 env path).data.take 6).asString = "000000"
      rw [hdata, show (6 : ℕ) = (("000000" : String).data).length from rfl,
        List.take_left]
      rfl
    · show ((compute_sha256 env path).data.drop 6).asString =
        ((env.sha256hex (env.encodeUtf8 path)).data.drop 6).asString
      rw [hdata, show (6 : ℕ) = (("000000" : String).data).length from rfl,
        List.drop_left]
    · show (compute_sha256 env path).data.length = 64
      rw [hdata, List.length_append, List.length_drop, h6, h64]
    · rw [hdata, List.all_append, Bool.and_eq_true]
      refine ⟨by decide, ?_⟩
      rw [List.all_eq_true]
      intro c hc
      have hmem : c ∈ (env.sha256hex (env.encodeUtf8 path)).data :=
        List.drop_subset _ _ hc
      have := List.all_eq_true.mp (hhex (env.encodeUtf8 path)) c hmem
      exact this
  · intro bytes hhit
    simp only [compute_sha256, hhit]

/-- Witness for C6: at the unreachable path "/no/such/file.nxs" the
emitted digest starts with the placeholder marker and has 64 characters. -/
theorem compute_sha256_spec_witness :
    strTake (compute_sha256 fixtureEnv "/no/such/file.nxs") 6 = "000000" ∧
    (compute_sha256 fixtureEnv "/no/such/file.nxs").length = 64 := by
  have hx : fixtureDigest.data.all (fun c => hexDigitChars.contains c) = true := by
    decide
  have h := compute_sha256_spec fixtureEnv "/no/such/file.nxs"
    (fun _ => rfl) (fun _ => hx)
  have h1 := h.1 rfl
  exact ⟨h1.2.1, h1.2.2.2.1⟩

/-- C3: validity flag.  For every conversion, `is_valid` of the
returned `ConversionResult` is true iff (schema validation passed, i.e.
the adapter reported no violations — which is also what a disabled or
skipped validation reports — or `validate_output` is off) and no errors
were accumulated in the context during mapping.  (Schema violations are
appended to the context errors before the final conjunction, which
makes the two formulations agree.) -/
theorem conversion_is_valid_iff (env : PyEnv) (cfg : ConverterConfig)
    (mappers : List MapperM) (source : AssemblyResult)
    (record_idO : Option String) (timestampO : Option DatetimeV) :
    (convertWith env cfg mappers source record_idO timestampO).is_valid = true ↔
      ((cfg.validate_output = false ∨
        cfg.schemaCheck (.dict (runMappers env mappers
          (initState source
            (record_idO.getD (generate_ulid (timestampO.getD env.now).ms env.rand))
            (timestampO.getD env.now))).record) = []) ∧
       (runMappers env mappers
          (initState source
            (record_idO.getD (generate_ulid (timestampO.getD env.now).ms env.rand))
            (timestampO.getD env.now))).ctx.errors = []) := by
  unfold convertWith finishConversion
  set st := runMappers env mappers
    (initState source
      (record_idO.getD (generate_ulid (timestampO.getD env.now).ms env.rand))
      (timestampO.getD env.now)) with hst
  by_cases hv : cfg.validate_output
  · by_cases hs : cfg.schemaCheck (.dict st.record) = []
    · simp [hv, hs, List.isEmpty_iff]
    · have : (cfg.schemaCheck (.dict st.record)).isEmpty = false := by
        simpa [List.isEmpty_iff] using hs
      simp only [hv, this, Bool.not_false, if_true, if_false]
      simp [hv, hs, List.isEmpty_iff, List.append_eq_nil]
  · simp [hv, List.isEmpty_iff]

/-- C2 counterexample: the context error recorded for a raising mapper
is `"Mapper <block_name> failed: <message>"`, which does not have the
claimed form `"<block_name> failed: <message>"` (it carries the extra
`"Mapper "` prefix). -/
theorem mapper_error_message_form_counterexample :
    (convertWith fixtureEnv cfgNoValidate [failingSampleMapper] emptySource
      (some "RID") (some t0)).errors = ["Mapper sample failed: boom"] ∧
    ∀ message : String, "Mapper sample failed: boom" ≠ "sample failed: " ++ message := by
  refine ⟨rfl, ?_⟩
  intro message h
  have h1 : strStarts ("sample failed: " ++ message) "sample" = true := by
    have hp : ("sample" : String).data <+: ("sample failed: " : String).data := by
      decide
    have hp2 : ("sample" : String).data <+:
        ("sample failed: " : String).data ++ message.data :=
      hp.trans (List.prefix_append _ _)
    simp only [strStarts, strdata_append]
    exact List.isPrefixOf_iff_prefix.mpr hp2
  rw [← h] at h1
  exact absurd h1 (by decide)

/-- C2 (amended): mapper-exception isolation.  If, when the converter
reaches mapper `m`, its `map` raises `e` (leaving the context `ctxe`),
then the conversion is exactly: the state reached so far, with one
context error `"Mapper <block_name> failed: <message>"` recorded and
one diagnostic entry (mapper name, message, exception kind, trace)
appended to the failure details, fed through every subsequent mapper in
order and finished normally — a `ConversionResult` is still returned
and the exception never propagates. -/
theorem mapper_exception_isolated (env : PyEnv) (cfg : ConverterConfig)
    (pre post : List MapperM) (m : MapperM) (source : AssemblyResult)
    (rid : String) (ts : DatetimeV) (e : PyExc) (ctxe : MapperContext)
    (h : m.map env (runMappers env pre (initState source rid ts)).ctx =
      (ctxe, .error e)) :
    convertWith env cfg (pre ++ m :: post) source (some rid) (some ts) =
      finishConversion cfg rid (runMappers env post
        { record := (runMappers env pre (initState source rid ts)).record,
          ctx := addError ctxe ("Mapper " ++ m.block_name ++ " failed: " ++ e.msg),
          details := (runMappers env pre (initState source rid ts)).details ++
            [⟨m.block_name, e.msg, e.kind, e.trace⟩] }) := by
  show finishConversion cfg rid
      (runMappers env (pre ++ m :: post) (initState source rid ts)) = _
  congr 1
  unfold runMappers
  rw [List.foldl_append, List.foldl_cons]
  show List.foldl (runMapperStep env)
    (runMapperStep env (runMappers env pre (initState source rid ts)) m) post = _
  congr 1
  unfold runMapperStep
  rw [h]
  rfl

/-- Witness for C2 at a concrete raising mapper: the recorded error. -/
theorem mapper_exception_isolated_witness :
    (convertWith fixtureEnv cfgNoValidate [failingSampleMapper] emptySource
      (some "RID") (some t0)).errors = ["Mapper sample failed: boom"] := by
  have h := mapper_exception_isolated fixtureEnv cfgNoValidate [] []
    failingSampleMapper emptySource "RID" t0 ⟨"boom", "ValueError", "tb"⟩
    (initState emptySource "RID" t0).ctx rfl
  rw [show ([] ++ failingSampleMapper :: [] : List MapperM) = [failingSampleMapper]
    from rfl] at h
  rw [h]
  rfl

/-- A fixed-width base-32 encoding has exactly that many digits. -/
theorem encodeBase32_length (w n : ℕ) : (encodeBase32 w n).length = w := by
  induction w generalizing n with
  | zero => rfl
  | succ w ih => simp [encodeBase32, ih]

/-- Every digit of the encoding is below 32. -/
theorem encodeBase32_digit_lt (w n : ℕ) : ∀ d ∈ encodeBase32 w n, d < 32 := by
  induction w generalizing n with
  | zero => intro d hd; simp [encodeBase32] at hd
  | succ w ih =>
    intro d hd
    rcases List.mem_cons.mp hd with h | h
    · rw [h]; exact Nat.mod_lt _ (by norm_num)
    · exact ih n d h

/-- The encoding only depends on the value modulo `32 ^ w`. -/
theorem encodeBase32_mod (w n : ℕ) :
    encodeBase32 w n = encodeBase32 w (n % 32 ^ w) := by
  induction w generalizing n with
  | zero => rfl
  | succ w ih =>
    unfold encodeBase32
    congr 1
    · have hdiv : n % 32 ^ (w + 1) / 32 ^ w = n / 32 ^ w % 32 := by
        rw [pow_succ]
        exact Nat.mod_mul_right_div_self n (32 ^ w) 32
      rw [hdiv, Nat.mod_mod_of_dvd _ (dvd_refl 32)]
    · rw [ih n, ih (n % 32 ^ (w + 1)),
        Nat.mod_mod_of_dvd _ (pow_dvd_pow 32 (Nat.le_succ w))]

/-- Strict monotonicity of the fixed-width big-endian encoding in the
lexicographic order on digit lists. -/
theorem encodeBase32_lex_lt (w : ℕ) :
    ∀ t1 t2 : ℕ, t1 < t2 → t2 < 32 ^ w →
      List.Lex (· < ·) (encodeBase32 w t1) (encodeBase32 w t2) := by
  induction w with
  | zero =>
    intro t1 t2 h h2
    simp only [pow_zero, Nat.lt_one_iff] at h2
    omega
  | succ w ih =>
    intro t1 t2 h h2
    have hBpos : 0 < 32 ^ w := Nat.pos_pow_of_pos w (by norm_num)
    have hd2 : t2 / 32 ^ w < 32 := by
      rw [Nat.div_lt_iff_lt_mul hBpos]
      rw [pow_succ, mul_comm] at h2
      exact h2
    have hdle : t1 / 32 ^ w ≤ t2 / 32 ^ w := Nat.div_le_div_right h.le
    have hd1 : t1 / 32 ^ w < 32 := lt_of_le_of_lt hdle hd2
    unfold encodeBase32
    rcases lt_or_eq_of_le hdle with hlt | heq
    · exact List.Lex.rel (by
        rwa [Nat.mod_eq_of_lt hd1, Nat.mod_eq_of_lt hd2])
    · rw [show t1 / 32 ^ w % 32 = t2 / 32 ^ w % 32 from by rw [heq]]
      refine List.Lex.cons ?_
      have e1 := Nat.div_add_mod t1 (32 ^ w)
      have e2 := Nat.div_add_mod t2 (32 ^ w)
      rw [heq] at e1
      have hmlt : t1 % 32 ^ w < t2 % 32 ^ w := by omega
      rw [encodeBase32_mod w t1, encodeBase32_mod w t2]
      exact ih (t1 % 32 ^ w) (t2 % 32 ^ w) hmlt (Nat.mod_lt _ hBpos)

/-- The Crockford digit table is strictly increasing. -/
theorem crockChar_strict_mono_fin :
    ∀ a b : Fin 32, (a : ℕ) < (b : ℕ) → crockChar a < crockChar b := by
  decide

/-- Every Crockford digit character belongs to the alphabet string. -/
theorem crockChar_contains :
    ∀ d : Fin 32, CROCKFORD_ALPHABET.data.contains (crockChar d) = true := by
  decide

/-- Mapping a strict lexicographic ordering of digit lists through the
(strictly increasing) Crockford table preserves it. -/
theorem lex_map_crock {l1 l2 : List ℕ} (h : List.Lex (· < ·) l1 l2)
    (hb1 : ∀ a ∈ l1, a < 32) (hb2 : ∀ a ∈ l2, a < 32) :
    List.Lex (· < ·) (l1.map crockChar) (l2.map crockChar) := by
  induction h with
  | nil => exact List.Lex.nil
  | @cons a l1 l2 h ih =>
    exact List.Lex.cons (ih
      (fun x hx => hb1 x (List.mem_cons_of_mem _ hx))
      (fun x hx => hb2 x (List.mem_cons_of_mem _ hx)))
  | @rel a1 l1 a2 l2 hr =>
    exact List.Lex.rel (crockChar_strict_mono_fin
      ⟨a1, hb1 a1 (List.mem_cons_self _ _)⟩
      ⟨a2, hb2 a2 (List.mem_cons_self _ _)⟩ hr)

/-- C5: ULID invariants.  Every generated identifier has length exactly
26 with every character drawn from the Crockford base32 uppercase
alphabet; for timestamps t1 < t2 (within the 48-bit range consumed by
the library) the 10-character time component of `generate(t1)` sorts
strictly lexicographically below that of `generate(t2)` — in
particular ≤, as claimed; and `validate(generate(x))` is true for
every x. -/
theorem ulid_generator_invariants (ms t1 t2 : ℕ) (r r1 r2 : Fin 16 → Fin 32)
    (h1 : t1 < t2) (h2 : t2 < 2 ^ 48) :
    (generate_ulid ms r).length = 26 ∧
    (∀ c ∈ (generate_ulid ms r).data, CROCKFORD_ALPHABET.data.contains c = true) ∧
    List.Lex (· < ·) ((generate_ulid t1 r1).data.take 10)
      ((generate_ulid t2 r2).data.take 10) ∧
    validate_ulid (generate_ulid ms r) = true := by
  have hdata : ∀ (t : ℕ) (rr : Fin 16 → Fin 32), (generate_ulid t rr).data =
      ((encodeBase32 10 t).map crockChar) ++
        ((List.finRange 16).map (fun i => crockChar (rr i))) := by
    intro t rr; rfl
  have hlen : (generate_ulid ms r).length = 26 := by
    show (generate_ulid ms r).data.length = 26
    rw [hdata, List.length_append, List.length_map, List.length_map,
      encodeBase32_length, List.length_finRange]
  have hmem : ∀ c ∈ (generate_ulid ms r).data,
      CROCKFORD_ALPHABET.data.contains c = true := by
    intro c hc
    rw [hdata] at hc
    rcases List.mem_append.mp hc with hcl | hcr
    · obtain ⟨d, hd, rfl⟩ := List.mem_map.mp hcl
      exact crockChar_contains ⟨d, encodeBase32_digit_lt 10 ms d hd⟩
    · obtain ⟨i, _, rfl⟩ := List.mem_map.mp hcr
      exact crockChar_contains (r i)
  have htake : ∀ (t : ℕ) (rr : Fin 16 → Fin 32),
      (generate_ulid t rr).data.take 10 = (encodeBase32 10 t).map crockChar := by
    intro t rr
    rw [hdata]
    rw [show (10 : ℕ) = ((encodeBase32 10 t).map crockChar).length from by
      rw [List.length_map, encodeBase32_length]]
    exact List.take_left _ _
  refine ⟨hlen, hmem, ?_, ?_⟩
  · rw [htake, htake]
    have h48 : t2 < 32 ^ 10 := lt_of_lt_of_le h2 (by norm_num)
    exact lex_map_crock (encodeBase32_lex_lt 10 t1 t2 h1 h48)
      (encodeBase32_digit_lt 10 t1) (encodeBase32_digit_lt 10 t2)
  · unfold validate_ulid
    rw [hlen]
    have hne : ¬ ((26 : ℕ) ≠ 26) := by omega
    rw [if_neg hne, List.all_eq_true]
    intro c hc
    simpa using hmem c hc

/-- Witness for C5 at timestamps 5 < 6 with zero randomness. -/
theorem ulid_generator_invariants_witness :
    (generate_ulid 5 (fun _ => 0)).length = 26 ∧
    (∀ c ∈ (generate_ulid 5 (fun _ => 0)).data,
      CROCKFORD_ALPHABET.data.contains c = true) ∧
    List.Lex (· < ·) ((generate_ulid 5 (fun _ => 0)).data.take 10)
      ((generate_ulid 6 (fun _ => 0)).data.take 10) ∧
    validate_ulid (generate_ulid 5 (fun _ => 0)) = true :=
  ulid_generator_invariants 5 5 6 (fun _ => 0) (fun _ => 0) (fun _ => 0)
    (by decide) (by decide)

/-- Python `min` over a list of finite floats folds the rational `min`,
keeping the first minimal element. -/
theorem pyMinGo_fin (l : List ℚ) : ∀ a : ℚ,
    pyMinGo (.float (.fin a)) (l.map (fun x => PyVal.float (.fin x))) =
      .ok (.float (.fin (l.foldl min a))) := by
  induction l with
  | nil => intro a; rfl
  | cons x xs ih =>
    intro a
    have hstep : pyMinGo (.float (.fin a))
        ((x :: xs).map (fun y => PyVal.float (.fin y))) =
        if x < a then
          pyMinGo (.float (.fin x)) (xs.map (fun y => PyVal.float (.fin y)))
        else
          pyMinGo (.float (.fin a)) (xs.map (fun y => PyVal.float (.fin y))) := by
      simp only [List.map_cons, pyMinGo, pyLtE, PyVal.toNumV, numLt]
      by_cases h : x < a <;> simp [h]
    rw [hstep]
    by_cases h : x < a
    · rw [if_pos h, ih x, List.foldl_cons, min_eq_right h.le]
    · rw [if_neg h, ih a, List.foldl_cons, min_eq_left (le_of_not_lt h)]

/-- Python `max` over a list of finite floats folds the rational `max`,
keeping the first maximal element. -/
theorem pyMaxGo_fin (l : List ℚ) : ∀ a : ℚ,
    pyMaxGo (.float (.fin a)) (l.map (fun x => PyVal.float (.fin x))) =
      .ok (.float (.fin (l.foldl max a))) := by
  induction l with
  | nil => intro a; rfl
  | cons x xs ih =>
    intro a
    have hstep : pyMaxGo (.float (.fin a))
        ((x :: xs).map (fun y => PyVal.float (.fin y))) =
        if a < x then
          pyMaxGo (.float (.fin x)) (xs.map (fun y => PyVal.float (.fin y)))
        else
          pyMaxGo (.float (.fin a)) (xs.map (fun y => PyVal.float (.fin y))) := by
      simp only [List.map_cons, pyMaxGo, pyGtE, PyVal.toNumV, numGt]
      by_cases h : a < x <;> simp [h]
    rw [hstep]
    by_cases h : a < x
    · rw [if_pos h, ih x, List.foldl_cons, max_eq_right h.le]
    · rw [if_neg h, ih a, List.foldl_cons, max_eq_left (le_of_not_lt h)]

/-- On a non-empty finite-numeric q array, the statistics tail of
`_build_series` publishes `min(q)`, `max(q)` and `len(q)` to both
channels. -/
theorem measurement_series_stats_fin (env : PyEnv) (q0 : ℚ) (qs : List ℚ)
    (ctx : MapperContext) :
    measurement_series_stats env
      (.list (PyVal.float (.fin q0) :: qs.map (fun a => PyVal.float (.fin a))))
      (PyVal.float (.fin q0) :: qs.map (fun a => PyVal.float (.fin a))) ctx =
    ({ ctx with
        measurement_data := { ctx.measurement_data with
          q_min := some (.fin (qs.foldl min q0)),
          q_max := some (.fin (qs.foldl max q0)),
          n_points := some (qs.length + 1) },
        metadata := dset (dset (dset ctx.metadata
          "q_min" (.float (.fin (qs.foldl min q0))))
          "q_max" (.float (.fin (qs.foldl max q0))))
          "n_points" (.int ((qs.length + 1 : ℕ) : ℤ)) },
      .ok ()) := by
  unfold measurement_series_stats
  have htr : (PyVal.list (PyVal.float (.fin q0) ::
      qs.map (fun a => PyVal.float (.fin a)))).truthy = true := by
    simp [PyVal.truthy]
  rw [if_pos htr]
  have hmin : pyMinE (PyVal.float (.fin q0) ::
      qs.map (fun a => PyVal.float (.fin a))) =
      .ok (.float (.fin (qs.foldl min q0))) := pyMinGo_fin qs q0
  have hmax : pyMaxE (PyVal.float (.fin q0) ::
      qs.map (fun a => PyVal.float (.fin a))) =
      .ok (.float (.fin (qs.foldl max q0))) := pyMaxGo_fin qs q0
  rw [hmin, hmax]
  show ({ ctx with
      measurement_data := { ctx.measurement_data with
        q_min := some (.fin (qs.foldl min q0)),
        q_max := some (.fin (qs.foldl max q0)),
        n_points := some ((PyVal.float (.fin q0) ::
          qs.map (fun a => PyVal.float (.fin a))).length) },
      metadata := dset (dset (dset ctx.metadata
        "q_min" (.float (.fin (qs.foldl min q0))))
        "q_max" (.float (.fin (qs.foldl max q0))))
        "n_points" (.int (((PyVal.float (.fin q0) ::
          qs.map (fun a => PyVal.float (.fin a))).length : ℕ) : ℤ)) },
    (.ok () : Except PyExc Unit)) = _
  simp only [List.length_cons, List.length_map]

/-- Full characterization of `_build_series` on a non-empty
finite-numeric q array: the returned series always carries the `R`
channel; `dR`/`dQ` are appended exactly when non-empty with a matching
paired length; a mismatch only records the warning; the q statistics
are published. -/
theorem measurement_build_series_char (env : PyEnv) (ctx : MapperContext)
    (q0 : ℚ) (qs : List ℚ) (rl drl dql : List PyVal) :
    measurement_build_series env
      (.list ((q0 :: qs).map (fun a => PyVal.float (.fin a))))
      (.list rl) (.list drl) (.list dql) ctx =
    ({ ctx with
        warnings := ctx.warnings ++
          (if drl.isEmpty = false ∧ drl.length ≠ rl.length then
            [drMismatchMsg drl.length rl.length] else []) ++
          (if dql.isEmpty = false ∧ dql.length ≠ qs.length + 1 then
            [dqMismatchMsg dql.length (qs.length + 1)] else []),
        measurement_data := { ctx.measurement_data with
          q_min := some (.fin (qs.foldl min q0)),
          q_max := some (.fin (qs.foldl max q0)),
          n_points := some (qs.length + 1) },
        metadata := dset (dset (dset ctx.metadata
          "q_min" (.float (.fin (qs.foldl min q0))))
          "q_max" (.float (.fin (qs.foldl max q0))))
          "n_points" (.int ((qs.length + 1 : ℕ) : ℤ)) },
      .ok (.dict [("series_id", .str "reflectivity_profile"),
        ("independent_variables", .list [.dict [("name", .str "q"),
          ("unit", .str DEFAULT_Q_UNIT),
          ("values", .list (ensure_native_types env
            ((q0 :: qs).map (fun a => PyVal.float (.fin a)))))]]),
        ("channels", .list ([channelR env rl] ++
          (if drl.isEmpty = false ∧ drl.length = rl.length then
            [channelDR env drl] else []) ++
          (if dql.isEmpty = false ∧ dql.length = qs.length + 1 then
            [channelDQ env dql] else [])))])) := by
  unfold measurement_build_series
  simp only [PyVal.asListE]
  rcases drl with _ | ⟨d0, drest⟩ <;> rcases dql with _ | ⟨e0, erest⟩
  · simp [PyVal.truthy, measurement_series_stats_fin, addWarning]
  · by_cases hq : (e0 :: erest).length = qs.length + 1 <;>
      simp only [List.length_cons] at hq <;>
      simp [PyVal.truthy, hq, measurement_series_stats_fin, addWarning]
  · by_cases hr : (d0 :: drest).length = rl.length <;>
      simp only [List.length_cons] at hr <;>
      simp [PyVal.truthy, hr, measurement_series_stats_fin, addWarning]
  · by_cases hr : (d0 :: drest).length = rl.length <;>
      by_cases hq : (e0 :: erest).length = qs.length + 1 <;>
      simp only [List.length_cons] at hr hq <;>
      simp [PyVal.truthy, hr, hq, measurement_series_stats_fin, addWarning]

/-- C9: secondary channel inclusion.  On a non-empty finite-numeric q
array, each secondary channel (dR paired with R, dQ paired with Q) is
included in the series iff its array is non-empty and its length equals
its paired primary array's length; a length mismatch records exactly
the warning and drops the channel (included channels carry their
sanitized arrays unmodified); and for the claim's source providing only
q = [0.01, 0.02, 0.03] and r (`dr`/`dq` read as the empty default) the
series carries exactly one channel, whose name is `R`. -/
theorem secondary_channels_iff (env : PyEnv) (ctx : MapperContext)
    (q0 : ℚ) (qs : List ℚ) (rl drl dql : List PyVal) :
    ((measurement_build_series env
        (.list ((q0 :: qs).map (fun a => PyVal.float (.fin a))))
        (.list rl) (.list drl) (.list dql) ctx).2 =
      .ok (.dict [("series_id", .str "reflectivity_profile"),
        ("independent_variables", .list [.dict [("name", .str "q"),
          ("unit", .str DEFAULT_Q_UNIT),
          ("values", .list (ensure_native_types env
            ((q0 :: qs).map (fun a => PyVal.float (.fin a)))))]]),
        ("channels", .list ([channelR env rl] ++
          (if drl.isEmpty = false ∧ drl.length = rl.length then
            [channelDR env drl] else []) ++
          (if dql.isEmpty = false ∧ dql.length = qs.length + 1 then
            [channelDQ env dql] else [])))])) ∧
    ((measurement_build_series env
        (.list ((q0 :: qs).map (fun a => PyVal.float (.fin a))))
        (.list rl) (.list drl) (.list dql) ctx).1.warnings =
      ctx.warnings ++
        (if drl.isEmpty = false ∧ drl.length ≠ rl.length then
          [drMismatchMsg drl.length rl.length] else []) ++
        (if dql.isEmpty = false ∧ dql.length ≠ qs.length + 1 then
          [dqMismatchMsg dql.length (qs.length + 1)] else [])) ∧
    ((measurement_build_series env
        (.list (((1/100 : ℚ) :: [(1/50 : ℚ), (3/100 : ℚ)]).map
          (fun a => PyVal.float (.fin a))))
        (.list rl) (.list []) (.list []) ctx).2 =
      .ok (.dict [("series_id", .str "reflectivity_profile"),
        ("independent_variables", .list [.dict [("name", .str "q"),
          ("unit", .str DEFAULT_Q_UNIT),
          ("values", .list (ensure_native_types env
            (((1/100 : ℚ) :: [(1/50 : ℚ), (3/100 : ℚ)]).map
              (fun a => PyVal.float (.fin a)))))]]),
        ("channels", .list [channelR env rl])])) ∧
    jGet (channelR env rl) "name" = some (.str "R") := by
  have hchar := measurement_build_series_char env ctx q0 qs rl drl dql
  have hchar2 := measurement_build_series_char env ctx (1/100)
    [(1/50 : ℚ), (3/100 : ℚ)] rl [] []
  refine ⟨?_, ?_, ?_, rfl⟩
  · rw [hchar]
  · rw [hchar]
  · rw [hchar2]
    simp

/-- `_build_processing` publishes the geometry (when truthy) and
touches nothing else in the context. -/
theorem measurement_build_processing_char (rd : PyDict) (ctx : MapperContext) :
    (measurement_build_processing rd ctx).1 =
      (if (dget rd "measurement_geometry").truthy then
        { ctx with
          measurement_data := { ctx.measurement_data with
            measurement_geometry := some (dget rd "measurement_geometry") },
          metadata := dset ctx.metadata "measurement_geometry"
            (dget rd "measurement_geometry") }
      else ctx) := by
  unfold measurement_build_processing
  by_cases h : (dget rd "measurement_geometry").truthy <;>
    by_cases h2 : (dget rd "reduction_version").truthy <;>
    simp [h, h2]

/-- With the typed channel populated, `DescriptorsMapper.map` reads it
first and emits `q_range_min`, `q_range_max` (sigma = |value| * 0.01)
and `total_points` (zero uncertainty) as the first three descriptors. -/
theorem descriptors_map_typed (env : PyEnv) (ctx : MapperContext)
    (f g : PyFloat) (n : ℕ)
    (hf : ctx.measurement_data.q_min = some f)
    (hg : ctx.measurement_data.q_max = some g)
    (hn : ctx.measurement_data.n_points = some n) :
    ∃ ctx2 ds, descriptors_map env ctx =
      (ctx2, .ok (some (descriptorsBlock ctx.created_utc.dateStr
        ctx.created_utc.isoStr ds))) ∧
      ds.get? 0 = some (descQRangeMin (.float f)
        (.dict [("sigma", .float (pyMulF (pyAbsF f) (1/100))),
          ("unit", .str "Å⁻¹")])) ∧
      ds.get? 1 = some (descQRangeMax (.float g)
        (.dict [("sigma", .float (pyMulF (pyAbsF g) (1/100))),
          ("unit", .str "Å⁻¹")])) ∧
      ds.get? 2 = some (descTotalPoints (.int (n : ℤ))) ∧
      ds ≠ [] := by
  by_cases hgeo : (dget ctx.metadata "measurement_geometry").truthy <;>
    simp only [descriptors_map, hf, hg, hn, Option.isSome_some, Bool.true_or,
      if_true, Option.map_some, estimate_q_uncertainty, PyVal.toNumV, hgeo,
      Bool.false_eq_true, if_false, List.cons_append, List.nil_append,
      List.isEmpty_cons] <;>
    exact ⟨_, _, rfl, rfl, rfl, rfl, by simp⟩

/-- On a source with non-empty finite-numeric q and r arrays (and
list-valued dr/dq, the `.get` default for omitted channels),
`MeasurementMapper.map` returns a block and publishes
`q_min = min(q)`, `q_max = max(q)`, `n_points = len(q)` — and the
geometry when the source carries one — to the typed context channel. -/
theorem measurement_map_publishes (env : PyEnv) (ctx : MapperContext)
    (refl rd : PyDict) (q0 : ℚ) (qs : List ℚ) (rv : PyVal) (rvs : List PyVal)
    (drl dql : List PyVal)
    (hrefl : ctx.reflectivity = some refl) (hne : refl.isEmpty = false)
    (hrd : dlookup refl "reflectivity" = some (.dict rd))
    (hrdne : rd.isEmpty = false)
    (hq : dlookup rd "q" =
      some (.list ((q0 :: qs).map (fun a => PyVal.float (.fin a)))))
    (hr : dlookup rd "r" = some (.list (rv :: rvs)))
    (hdr : dgetD rd "dr" (.list []) = .list drl)
    (hdq : dgetD rd "dq" (.list []) = .list dql) :
    ∃ ctx1 block, measurement_map env ctx = (ctx1, .ok (some block)) ∧
      ctx1.measurement_data.q_min = some (.fin (qs.foldl min q0)) ∧
      ctx1.measurement_data.q_max = some (.fin (qs.foldl max q0)) ∧
      ctx1.measurement_data.n_points = some (qs.length + 1) ∧
      ((dget rd "measurement_geometry").truthy = true →
        ctx1.measurement_data.measurement_geometry =
          some (dget rd "measurement_geometry")) ∧
      ctx1.created_utc = ctx.created_utc := by
  have hq' : dgetD rd "q" (.list []) =
      .list ((q0 :: qs).map (fun a => PyVal.float (.fin a))) := by
    unfold dgetD; rw [hq]; rfl
  have hr' : dgetD rd "r" (.list []) = .list (rv :: rvs) := by
    unfold dgetD; rw [hr]; rfl
  have hrd' : dgetD refl "reflectivity" (.dict []) = .dict rd := by
    unfold dgetD; rw [hrd]; rfl
  rcases hproc : measurement_build_processing rd ctx with ⟨ctxp, proc⟩
  have hctxp : ctxp = (measurement_build_processing rd ctx).1 := by
    rw [hproc]
  have hchar := measurement_build_series_char env ctxp q0 qs (rv :: rvs) drl dql
  rcases hser : measurement_build_series env
      (.list ((q0 :: qs).map (fun a => PyVal.float (.fin a))))
      (.list (rv :: rvs)) (.list drl) (.list dql) ctxp with ⟨ctx1, res⟩
  rw [hser] at hchar
  obtain ⟨hc1, hres⟩ := Prod.mk.injEq .. |>.mp hchar
  obtain ⟨sv, hsv⟩ : ∃ sv, res = Except.ok sv := ⟨_, hres⟩
  have hmap : measurement_map env ctx = (ctx1, .ok (some (.dict
      [("processing", proc), ("series", .list [sv]),
       ("qc", measurement_build_qc ctx1)]))) := by
    simp only [measurement_map, hrefl, optDictTruthy, hne, Bool.not_false,
      if_true, Option.getD_some, hrd', PyVal.truthy, hrdne, PyVal.asDictE,
      hq', hr', hdr, hdq, List.map_cons, List.isEmpty_cons, Bool.not_true,
      Bool.false_or, Bool.false_eq_true, if_false, hproc]
    rw [show (PyVal.float (PyFloat.fin q0) ::
        List.map (fun a => PyVal.float (PyFloat.fin a)) qs) =
      ((q0 :: qs).map (fun a => PyVal.float (.fin a))) from rfl, hser, hsv]
  refine ⟨ctx1, _, hmap, ?_, ?_, ?_, ?_, ?_⟩
  · rw [hc1]
  · rw [hc1]
  · rw [hc1]
  · intro hgeo
    rw [hc1]
    show ctxp.measurement_data.measurement_geometry = _
    rw [hctxp, measurement_build_processing_char, if_pos hgeo]
  · rw [hc1]
    show ctxp.created_utc = ctx.created_utc
    rw [hctxp, measurement_build_processing_char]
    by_cases hgeo : (dget rd "measurement_geometry").truthy <;> simp [hgeo]

/-- C7: the Measurement→Descriptors channel.  For every source with
non-empty finite-numeric q and r arrays, the Measurement mapper
publishes `q_min = min(q)`, `q_max = max(q)`, `n_points = len(q)` (and
the geometry when present in the source) to the context channel, and
the Descriptors mapper — reading the Measurement-published channel
first — emits `q_range_min` and `q_range_max` descriptors with exactly
those values (kind=absolute, source=computed, sigma = |value| * 0.01)
and a `total_points` descriptor with value `n_points` and zero
uncertainty, as the first three descriptors. -/
theorem measurement_publishes_descriptors_consume (env : PyEnv)
    (ctx : MapperContext) (refl rd : PyDict) (q0 : ℚ) (qs : List ℚ)
    (rv : PyVal) (rvs drl dql : List PyVal)
    (hrefl : ctx.reflectivity = some refl) (hne : refl.isEmpty = false)
    (hrd : dlookup refl "reflectivity" = some (.dict rd))
    (hrdne : rd.isEmpty = false)
    (hq : dlookup rd "q" =
      some (.list ((q0 :: qs).map (fun a => PyVal.float (.fin a)))))
    (hr : dlookup rd "r" = some (.list (rv :: rvs)))
    (hdr : dgetD rd "dr" (.list []) = .list drl)
    (hdq : dgetD rd "dq" (.list []) = .list dql) :
    ∃ ctx1 block, measurement_map env ctx = (ctx1, .ok (some block)) ∧
      ctx1.measurement_data.q_min = some (.fin (qs.foldl min q0)) ∧
      ctx1.measurement_data.q_max = some (.fin (qs.foldl max q0)) ∧
      ctx1.measurement_data.n_points = some (qs.length + 1) ∧
      ((dget rd "measurement_geometry").truthy = true →
        ctx1.measurement_data.measurement_geometry =
          some (dget rd "measurement_geometry")) ∧
      ∃ ctx2 ds, descriptors_map env ctx1 =
          (ctx2, .ok (some (descriptorsBlock ctx1.created_utc.dateStr
            ctx1.created_utc.isoStr ds))) ∧
        ds.get? 0 = some (descQRangeMin (.float (.fin (qs.foldl min q0)))
          (.dict [("sigma", .float (.fin (|qs.foldl min q0| * (1/100)))),
            ("unit", .str "Å⁻¹")])) ∧
        ds.get? 1 = some (descQRangeMax (.float (.fin (qs.foldl max q0)))
          (.dict [("sigma", .float (.fin (|qs.foldl max q0| * (1/100)))),
            ("unit", .str "Å⁻¹")])) ∧
        ds.get? 2 = some (descTotalPoints (.int ((qs.length + 1 : ℕ) : ℤ))) := by
  obtain ⟨ctx1, block, hmap, hqmin, hqmax, hnp, hgeo, _⟩ :=
    measurement_map_publishes env ctx refl rd q0 qs rv rvs drl dql
      hrefl hne hrd hrdne hq hr hdr hdq
  obtain ⟨ctx2, ds, hdesc, h0, h1, h2, _⟩ :=
    descriptors_map_typed env ctx1 (.fin (qs.foldl min q0))
      (.fin (qs.foldl max q0)) (qs.length + 1) hqmin hqmax hnp
  exact ⟨ctx1, block, hmap, hqmin, hqmax, hnp, hgeo, ctx2, ds, hdesc,
    h0, h1, h2⟩

/-- Witness for C7 at the concrete q = [0.01, 0.02, 0.03] fixture. -/
theorem measurement_publishes_descriptors_consume_witness :
    ∃ ctx1 block,
      measurement_map fixtureEnv ctxFixture = (ctx1, .ok (some block)) ∧
      ctx1.measurement_data.q_min =
        some (.fin ([(1/50 : ℚ), (3/100 : ℚ)].foldl min (1/100))) := by
  obtain ⟨ctx1, block, hmap, hqmin, _⟩ :=
    measurement_publishes_descriptors_consume fixtureEnv ctxFixture
      [("reflectivity", .dict rdFixture)] rdFixture (1/100)
      [(1/50 : ℚ), (3/100 : ℚ)] (PyVal.float (.fin 1))
      [PyVal.float (.fin (1/2)), PyVal.float (.fin (1/10))] [] []
      (by rfl) (by rfl) (by rfl) (by rfl) (by rfl) (by rfl) (by rfl) (by rfl)
  exact ⟨ctx1, block, hmap, hqmin⟩

/-- C8: the required pair of the context block.  The Context mapper
returns null whenever the temperature field is missing from the source,
and whenever the environment string cannot be resolved (for any
successfully coerced temperature); every context block it does emit
contains both `environment` and `temperature_K`; and the concrete
source with `ambient_medium="air"` but no temperature field converts to
a record with no `context` key at all. -/
theorem context_required_pair (env : PyEnv) (ctx : MapperContext) :
    (context_get_temperature env ctx = .ok Option.none →
      context_map env ctx = (ctx, .ok Option.none)) ∧
    (∀ tempO, context_get_environment_string ctx = Option.none →
      context_get_temperature env ctx = .ok tempO →
      context_map env ctx = (ctx, .ok Option.none)) ∧
    (∀ ctx2 kvs, context_map env ctx = (ctx2, .ok (some (.dict kvs))) →
      hasKey kvs "environment" = true ∧ hasKey kvs "temperature_K" = true) ∧
    jGet (convert fixtureEnv cfgNoValidate srcC8 (some "RID")
      (some t0)).record "context" = Option.none := by
  refine ⟨?_, ?_, ?_, by rfl⟩
  · intro htemp
    simp only [context_map, htemp]
    rcases hes : context_get_environment_string ctx with _ | sv
    · simp [hasKey, dlookup, List.find?]
    · by_cases hsv : sv = "" <;> simp [hsv, hasKey, dset, dlookup, List.find?]
  · intro tempO hes htemp
    simp only [context_map, htemp, hes]
    rcases tempO with _ | f
    · simp [hasKey, dlookup, List.find?]
    · simp [hasKey, dset, dlookup, List.find?]
  · intro ctx2 kvs h
    rcases htemp : context_get_temperature env ctx with e | tempO
    · rcases hes : context_get_environment_string ctx with _ | sv <;>
        simp only [context_map, htemp, hes] at h <;> simp at h
    · rcases tempO with _ | f <;>
        rcases hes : context_get_environment_string ctx with _ | sv
      · simp only [context_map, htemp, hes] at h
        simp [hasKey, dlookup, List.find?] at h
      · by_cases hsv : sv = "" <;>
          simp only [context_map, htemp, hes] at h <;>
          simp [hsv, hasKey, dset, dlookup, List.find?] at h
      · simp only [context_map, htemp, hes] at h
        simp [hasKey, dset, dlookup, List.find?] at h
      · by_cases hsv : sv = ""
        · simp only [context_map, htemp, hes] at h
          simp [hsv, hasKey, dset, dlookup, List.find?] at h
        · simp only [context_map, htemp, hes] at h
          rcases hextra : context_build_extra_conditions env ctx with e2 | extraO <;>
            simp only [hextra] at h
          · simp [hsv, hasKey, dset, dlookup, List.find?] at h
          · simp [hsv, hasKey, dset, dlookup, List.find?, Prod.mk.injEq] at h
            obtain ⟨-, hR⟩ := h
            subst hR
            constructor <;> repeat' split
            all_goals (repeat (first
              | apply hasKey_dupdate_of_hasKey
              | apply hasKey_dset_of_hasKey))
            all_goals simp [hasKey, dset, dlookup, List.find?]

/-- Witness for C8: a context with a resolvable environment string but
no temperature field maps to null. -/
theorem context_required_pair_witness :
    context_map fixtureEnv
      { result := srcC8, record_id := "RID", created_utc := t0 } =
    ({ result := srcC8, record_id := "RID", created_utc := t0 },
      .ok Option.none) :=
  (context_required_pair fixtureEnv
    { result := srcC8, record_id := "RID", created_utc := t0 }).1 (by rfl)

theorem measurement_series_stats_inv (env : PyEnv) (q : PyVal) (ql : List PyVal)
    (ctx ctx2 : MapperContext) (res : Except PyExc Unit)
    (h : measurement_series_stats env q ql ctx = (ctx2, res))
    (hinv : DescOkInv ctx) : DescOkInv ctx2 := by
  unfold measurement_series_stats at h
  by_cases hq : q.truthy <;>
    simp only [hq, if_true, Bool.false_eq_true, if_false] at h
  · repeat' split at h
    all_goals injection h with h1 h2
    all_goals subst h1
    all_goals first
      | exact hinv
      | exact Or.inr (Or.inl rfl)
  · injection h with h1 h2
    subst h1
    exact hinv

theorem measurement_build_series_inv (env : PyEnv) (q r dr dq : PyVal)
    (ctx ctx2 : MapperContext) (res : Except PyExc PyVal)
    (h : measurement_build_series env q r dr dq ctx = (ctx2, res))
    (hinv : DescOkInv ctx) : DescOkInv ctx2 := by
  unfold measurement_build_series at h
  repeat' (first | split at h | simp only [] at h)
  all_goals injection h with h1 h2
  all_goals subst h1
  all_goals first
    | exact hinv
    | exact measurement_series_stats_inv _ _ _ _ _ _ (by assumption) (by exact hinv)

theorem measurement_build_processing_inv (rd : PyDict) (ctx ctxp : MapperContext)
    (proc : PyVal) (h : measurement_build_processing rd ctx = (ctxp, proc))
    (hinv : DescOkInv ctx) : DescOkInv ctxp := by
  have hc := measurement_build_processing_char rd ctx
  rw [h] at hc
  by_cases hg : (dget rd "measurement_geometry").truthy
  · rw [if_pos hg] at hc
    have hcp : ctxp = _ := hc
    subst hcp
    rcases hinv with ⟨h1, h2, h3, h4, h5, h6⟩ | hs
    · left
      have e1 := dlookup_dset_ne ctx.metadata "measurement_geometry" "q_min"
        ((dlookup rd "measurement_geometry").getD PyVal.none) (by decide)
      have e2 := dlookup_dset_ne ctx.metadata "measurement_geometry" "q_max"
        ((dlookup rd "measurement_geometry").getD PyVal.none) (by decide)
      have e3 := dlookup_dset_ne ctx.metadata "measurement_geometry" "n_points"
        ((dlookup rd "measurement_geometry").getD PyVal.none) (by decide)
      refine ⟨h1, h2, h3, ?_, ?_, ?_⟩ <;>
        simp only [dget, e1, e2, e3] <;>
        first | exact h4 | exact h5 | exact h6
    · right
      exact hs
  · rw [if_neg hg] at hc
    have hcp : ctxp = ctx := hc
    subst hcp
    exact hinv

theorem measurement_build_processing_inv2 (rd : PyDict) (ctx : MapperContext)
    (hinv : DescOkInv ctx) : DescOkInv ((measurement_build_processing rd ctx).1) :=
  measurement_build_processing_inv rd ctx _ _ Prod.mk.eta.symm hinv

theorem measurement_map_inv (env : PyEnv) (ctx ctx2 : MapperContext)
    (res : Except PyExc (Option PyVal))
    (h : measurement_map env ctx = (ctx2, res))
    (hinv : DescOkInv ctx) : DescOkInv ctx2 := by
  unfold measurement_map at h
  repeat' (first | split at h | simp only [] at h)
  all_goals injection h with h1 h2
  all_goals subst h1
  all_goals first
    | exact hinv
    | exact measurement_build_series_inv _ _ _ _ _ _ _ _ (by assumption)
        (by exact measurement_build_processing_inv2 _ _ hinv)

theorem timestamps_map_ok (env : PyEnv) (ctx : MapperContext) :
    ∃ ctx2 b, timestamps_map env ctx = (ctx2, .ok (some b)) ∧
      ctx2.metadata = ctx.metadata ∧
      ctx2.measurement_data = ctx.measurement_data := by
  unfold timestamps_map
  by_cases h1 : optDictTruthy ctx.reflectivity
  · by_cases h2 : (dget (ctx.reflectivity.getD []) "run_start").truthy <;>
      simp only [h1, h2, if_true, Bool.false_eq_true, if_false] <;>
      exact ⟨_, _, rfl, rfl, rfl⟩
  · simp only [h1, Bool.false_eq_true, if_false]
    exact ⟨_, _, rfl, rfl, rfl⟩

theorem acq_facility_preserves (ctx : MapperContext) :
    (acq_build_facility_block ctx).1.measurement_data = ctx.measurement_data ∧
    ∀ k, k ≠ "organization" →
      dget (acq_build_facility_block ctx).1.metadata k = dget ctx.metadata k := by
  unfold acq_build_facility_block
  by_cases h1 : (dget (ctx.reflectivity.getD []) "facility").truthy <;>
    by_cases h2 : (dget (ctx.reflectivity.getD []) "instrument_name").truthy <;>
    by_cases h3 : (dget (ctx.reflectivity.getD []) "laboratory").truthy <;>
    simp only [h1, h2, h3, if_true, Bool.false_eq_true, if_false] <;>
    refine ⟨by first | rfl | trivial, fun k hk => ?_⟩ <;>
    simp only [addWarning, dget] <;>
    first
      | rfl
      | rw [dlookup_dset_ne _ "organization" k _ (fun he => hk he.symm)]

theorem acquisition_source_map_ok (env : PyEnv) (ctx : MapperContext) :
    ∃ ctx2 b, acquisition_source_map env ctx = (ctx2, .ok (some b)) ∧
      ctx2.measurement_data = ctx.measurement_data ∧
      ∀ k, k ≠ "organization" →
        dget ctx2.metadata k = dget ctx.metadata k := by
  unfold acquisition_source_map
  by_cases h1 : optDictTruthy ctx.reflectivity
  · simp only [h1, if_true]
    rcases hfac : acq_build_facility_block ctx with ⟨ctxf, fac⟩
    have hp := acq_facility_preserves ctx
    rw [hfac] at hp
    simp only [hfac]
    by_cases h2 : fac.isEmpty <;>
      simp only [h2, Bool.not_true, Bool.not_false, if_true,
        Bool.false_eq_true, if_false] <;>
      exact ⟨_, _, rfl, hp.1, hp.2⟩
  · simp only [h1, Bool.false_eq_true, if_false]
    exact ⟨_, _, rfl, rfl, fun k hk => rfl⟩

theorem descriptors_map_ok (env : PyEnv) (ctx : MapperContext)
    (hinv : DescOkInv ctx) :
    ∃ ctx2 ds, descriptors_map env ctx =
      (ctx2, .ok (some (descriptorsBlock ctx.created_utc.dateStr
        ctx.created_utc.isoStr ds))) ∧ ds.isEmpty = false := by
  rcases hinv with ⟨e1, e2, e3, m1, m2, m3⟩ | hsome
  · by_cases hgeo : (dget ctx.metadata "measurement_geometry").truthy <;>
      by_cases hrefl : optDictTruthy ctx.reflectivity <;>
      by_cases hprobe : (dget (ctx.reflectivity.getD []) "probe").truthy <;>
      simp only [descriptors_map, metaOpt, e1, e2, e3, m1, m2, m3,
        Option.isSome_none, Bool.or_self, Bool.false_eq_true, if_false,
        if_true, hgeo, hrefl, hprobe, addWarning, MapperContext.reflectivity,
        List.cons_append, List.nil_append, List.isEmpty_cons] <;>
      exact ⟨_, _, rfl, rfl⟩
  · rcases hqm : ctx.measurement_data.q_min with _ | f <;>
      rcases hqx : ctx.measurement_data.q_max with _ | g <;>
      rcases hnp : ctx.measurement_data.n_points with _ | n <;>
      simp only [hqm, hqx, hnp, Option.isSome_none, Option.isSome_some,
        Bool.false_eq_true, false_or, or_false, or_self] at hsome <;>
      by_cases hgeo : (dget ctx.metadata "measurement_geometry").truthy <;>
      by_cases hrefl : optDictTruthy ctx.reflectivity <;>
      by_cases hprobe : (dget (ctx.reflectivity.getD []) "probe").truthy <;>
      simp only [descriptors_map, hqm, hqx, hnp, Option.isSome_none,
        Option.isSome_some, Bool.or_self, Bool.true_or, Bool.or_true,
        Bool.false_or, Bool.or_false, if_true, Option.map_some,
        Option.map_none, estimate_q_uncertainty, PyVal.toNumV, hgeo, hrefl,
        hprobe, addWarning, MapperContext.reflectivity, Bool.false_eq_true,
        if_false, List.cons_append, List.nil_append, List.isEmpty_cons] <;>
      exact ⟨_, _, rfl, rfl⟩

theorem timestamps_validate_fields (b : PyVal) (ctx : MapperContext) :
    (timestamps_validate b ctx).1.metadata = ctx.metadata ∧
    (timestamps_validate b ctx).1.measurement_data = ctx.measurement_data := by
  unfold timestamps_validate
  repeat' split
  all_goals exact ⟨rfl, rfl⟩

theorem acquisition_source_validate_fields (b : PyVal) (ctx : MapperContext) :
    (acquisition_source_validate b ctx).1.metadata = ctx.metadata ∧
    (acquisition_source_validate b ctx).1.measurement_data =
      ctx.measurement_data := by
  unfold acquisition_source_validate
  repeat' split
  all_goals exact ⟨rfl, rfl⟩

theorem measurement_validate_channels_fields (ctx : MapperContext) (i : ℕ)
    (chans : List PyVal) :
    (measurement_validate_channels ctx i chans).1.metadata = ctx.metadata ∧
    (measurement_validate_channels ctx i chans).1.measurement_data =
      ctx.measurement_data := by
  induction chans generalizing i with
  | nil => exact ⟨rfl, rfl⟩
  | cons ch rest ih =>
    unfold measurement_validate_channels
    simp only []
    repeat' split
    all_goals first | exact ⟨rfl, rfl⟩ | exact ih (i + 1)

theorem measurement_validate_fields (b : PyVal) (ctx : MapperContext) :
    (measurement_validate b ctx).1.metadata = ctx.metadata ∧
    (measurement_validate b ctx).1.measurement_data = ctx.measurement_data := by
  unfold measurement_validate
  simp only []
  repeat' split
  all_goals first
    | exact ⟨rfl, rfl⟩
    | exact measurement_validate_channels_fields ctx 0 _

theorem DescOkInv_transport (c1 c2 : MapperContext)
    (hd : c2.measurement_data = c1.measurement_data)
    (hm : c2.metadata = c1.metadata)
    (h : DescOkInv c1) : DescOkInv c2 := by
  unfold DescOkInv at h ⊢
  rw [hd, hm]
  exact h

theorem DescOkInv_transport_keys (c1 c2 : MapperContext)
    (hd : c2.measurement_data = c1.measurement_data)
    (h1 : dget c2.metadata "q_min" = dget c1.metadata "q_min")
    (h2 : dget c2.metadata "q_max" = dget c1.metadata "q_max")
    (h3 : dget c2.metadata "n_points" = dget c1.metadata "n_points")
    (h : DescOkInv c1) : DescOkInv c2 := by
  unfold DescOkInv at h ⊢
  rw [hd]
  rcases h with ⟨a1, a2, a3, b1, b2, b3⟩ | h
  · exact Or.inl ⟨a1, a2, a3, by rw [h1]; exact b1, by rw [h2]; exact b2,
      by rw [h3]; exact b3⟩
  · exact Or.inr h

theorem runMapperStep_other_keys (env : PyEnv) (st : ConvState) (m : MapperM)
    (k : String) (hk : k ≠ m.block_name) :
    dlookup (runMapperStep env st m).record k = dlookup st.record k := by
  rcases hm : m.map env st.ctx with ⟨ctx1, res⟩
  rcases res with e | ob
  · simp only [runMapperStep, hm]
  · rcases ob with _ | blk
    · simp only [runMapperStep, hm]
      split <;> rfl
    · rcases hv : m.validate blk ctx1 with ⟨ctx3, vb⟩
      simp only [runMapperStep, hm, hv]
      exact dlookup_dset_ne st.record m.block_name k blk (fun he => hk he.symm)

theorem step1_timestamps (env : PyEnv) (st : ConvState) :
    ∃ b,
      (runMapperStep env st timestampsMapper).record =
        dset st.record "timestamps" b ∧
      (runMapperStep env st timestampsMapper).ctx.metadata = st.ctx.metadata ∧
      (runMapperStep env st timestampsMapper).ctx.measurement_data =
        st.ctx.measurement_data := by
  obtain ⟨ctx2, b, hmap, hm, hd⟩ := timestamps_map_ok env st.ctx
  have hvf := timestamps_validate_fields b ctx2
  rcases hv : timestamps_validate b ctx2 with ⟨ctx3, vb⟩
  simp only [hv] at hvf
  refine ⟨b, ?_, ?_, ?_⟩ <;>
    simp only [runMapperStep, timestampsMapper, hmap, hv]
  · rw [hvf.1, hm]
  · rw [hvf.2, hd]

theorem step2_acq (env : PyEnv) (st : ConvState) :
    ∃ b,
      (runMapperStep env st acquisitionSourceMapper).record =
        dset st.record "acquisition_source" b ∧
      (runMapperStep env st acquisitionSourceMapper).ctx.measurement_data =
        st.ctx.measurement_data ∧
      ∀ k, k ≠ "organization" →
        dget (runMapperStep env st acquisitionSourceMapper).ctx.metadata k =
          dget st.ctx.metadata k := by
  obtain ⟨ctx2, b, hmap, hd, hm⟩ := acquisition_source_map_ok env st.ctx
  have hvf := acquisition_source_validate_fields b ctx2
  rcases hv : acquisition_source_validate b ctx2 with ⟨ctx3, vb⟩
  simp only [hv] at hvf
  refine ⟨b, ?_, ?_, ?_⟩ <;>
    simp only [runMapperStep, acquisitionSourceMapper, hmap, hv]
  · rw [hvf.2, hd]
  · intro k hk
    rw [show ctx3.metadata = ctx2.metadata from hvf.1]
    exact hm k hk

theorem step3_measurement (env : PyEnv) (st : ConvState)
    (hinv : DescOkInv st.ctx) :
    DescOkInv (runMapperStep env st measurementMapper).ctx ∧
    ∀ k, k ≠ "measurement" →
      dlookup (runMapperStep env st measurementMapper).record k =
        dlookup st.record k := by
  rcases hm : measurement_map env st.ctx with ⟨ctx1, res⟩
  have hinv1 : DescOkInv ctx1 := measurement_map_inv env st.ctx ctx1 res hm hinv
  rcases res with e | ob
  · constructor
    · simp only [runMapperStep, measurementMapper, hm]
      exact hinv1
    · intro k hk
      simp only [runMapperStep, measurementMapper, hm]
  · rcases ob with _ | blk
    · constructor
      · simp only [runMapperStep, measurementMapper, hm, Bool.false_eq_true,
          if_false]
        exact hinv1
      · intro k hk
        simp only [runMapperStep, measurementMapper, hm, Bool.false_eq_true,
          if_false]
    · have hvf := measurement_validate_fields blk ctx1
      rcases hv : measurement_validate blk ctx1 with ⟨ctx3, vb⟩
      simp only [hv] at hvf
      constructor
      · simp only [runMapperStep, measurementMapper, hm, hv]
        exact DescOkInv_transport ctx1 ctx3 hvf.2 hvf.1 hinv1
      · intro k hk
        simp only [runMapperStep, measurementMapper, hm, hv]
        exact dlookup_dset_ne st.record "measurement" k blk
          (fun he => hk he.symm)

theorem step4_descriptors (env : PyEnv) (st : ConvState)
    (hinv : DescOkInv st.ctx) :
    ∃ ds, (runMapperStep env st descriptorsMapper).record =
        dset st.record "descriptors"
          (descriptorsBlock st.ctx.created_utc.dateStr
            st.ctx.created_utc.isoStr ds) ∧ ds.isEmpty = false := by
  obtain ⟨ctx2, ds, hmap, hne⟩ := descriptors_map_ok env st.ctx hinv
  rcases hv : descriptors_validate (descriptorsBlock st.ctx.created_utc.dateStr
    st.ctx.created_utc.isoStr ds) ctx2 with ⟨ctx3, vb⟩
  refine ⟨ds, ?_, hne⟩
  simp only [runMapperStep, descriptorsMapper, hmap, hv]

theorem finishConversion_record (cfg : ConverterConfig) (rid : String)
    (st : ConvState) :
    (finishConversion cfg rid st).record = .dict st.record := by
  unfold finishConversion
  simp only []

/-- C1: for every input source, the record returned by `convert`
contains the `timestamps`, `acquisition_source` and `descriptors`
blocks, and the descriptors block carries a non-empty
`outputs[0].descriptors` array. -/
theorem required_blocks_always_present (env : PyEnv) (cfg : ConverterConfig)
    (source : AssemblyResult) (record_idO : Option String)
    (timestampO : Option DatetimeV) :
    ∃ r : PyDict, (convert env cfg source record_idO timestampO).record =
        .dict r ∧
      hasKey r "timestamps" = true ∧
      hasKey r "acquisition_source" = true ∧
      hasKey r "descriptors" = true ∧
      ∃ desc ds, dlookup r "descriptors" = some desc ∧
        ((jGet desc "outputs").bind (fun o => jAt o 0)).bind
          (fun o => jGet o "descriptors") = some (.list ds) ∧
        ds.isEmpty = false := by
  obtain ⟨rid, ts, hconv⟩ : ∃ rid ts,
      convert env cfg source record_idO timestampO =
        finishConversion cfg rid
          (runMappers env default_mappers (initState source rid ts)) :=
    ⟨_, _, rfl⟩
  have h0inv : DescOkInv (initState source rid ts).ctx :=
    Or.inl ⟨rfl, rfl, rfl, rfl, rfl, rfl⟩
  obtain ⟨st1, hst1⟩ : ∃ s,
      runMapperStep env (initState source rid ts) timestampsMapper = s :=
    ⟨_, rfl⟩
  have A1 := step1_timestamps env (initState source rid ts)
  rw [hst1] at A1
  obtain ⟨b1, h1rec, h1meta, h1md⟩ := A1
  have h1inv : DescOkInv st1.ctx :=
    DescOkInv_transport _ _ h1md h1meta h0inv
  obtain ⟨st2, hst2⟩ : ∃ s, runMapperStep env st1 acquisitionSourceMapper = s :=
    ⟨_, rfl⟩
  have A2 := step2_acq env st1
  rw [hst2] at A2
  obtain ⟨b2, h2rec, h2md, h2meta⟩ := A2
  have h2inv : DescOkInv st2.ctx :=
    DescOkInv_transport_keys st1.ctx st2.ctx h2md
      (h2meta "q_min" (by decide)) (h2meta "q_max" (by decide))
      (h2meta "n_points" (by decide)) h1inv
  obtain ⟨st3, hst3⟩ : ∃ s, runMapperStep env st2 measurementMapper = s :=
    ⟨_, rfl⟩
  have A3 := step3_measurement env st2 h2inv
  rw [hst3] at A3
  obtain ⟨h3inv, h3rec⟩ := A3
  obtain ⟨st4, hst4⟩ : ∃ s, runMapperStep env st3 descriptorsMapper = s :=
    ⟨_, rfl⟩
  have A4 := step4_descriptors env st3 h3inv
  rw [hst4] at A4
  obtain ⟨ds, h4rec, h4ne⟩ := A4
  obtain ⟨st5, hst5⟩ : ∃ s, runMapperStep env st4 sampleMapper = s := ⟨_, rfl⟩
  obtain ⟨st6, hst6⟩ : ∃ s, runMapperStep env st5 systemMapper = s := ⟨_, rfl⟩
  obtain ⟨st7, hst7⟩ : ∃ s, runMapperStep env st6 contextMapper = s := ⟨_, rfl⟩
  obtain ⟨st8, hst8⟩ : ∃ s, runMapperStep env st7 assetsMapper = s := ⟨_, rfl⟩
  obtain ⟨st9, hst9⟩ : ∃ s, runMapperStep env st8 linksMapper = s := ⟨_, rfl⟩
  have hrun : runMappers env default_mappers (initState source rid ts) = st9 := by
    simp only [runMappers, default_mappers, List.foldl_cons, List.foldl_nil,
      hst1, hst2, hst3, hst4, hst5, hst6, hst7, hst8, hst9]
  have keepTail : ∀ k : String, k ≠ "sample" → k ≠ "system" → k ≠ "context" →
      k ≠ "assets" → k ≠ "links" →
      dlookup st9.record k = dlookup st4.record k := by
    intro k h5 h6 h7 h8 h9
    have e5 := runMapperStep_other_keys env st4 sampleMapper k h5
    have e6 := runMapperStep_other_keys env st5 systemMapper k h6
    have e7 := runMapperStep_other_keys env st6 contextMapper k h7
    have e8 := runMapperStep_other_keys env st7 assetsMapper k h8
    have e9 := runMapperStep_other_keys env st8 linksMapper k h9
    rw [hst5] at e5
    rw [hst6] at e6
    rw [hst7] at e7
    rw [hst8] at e8
    rw [hst9] at e9
    rw [e9, e8, e7, e6, e5]
  have ht : dlookup st9.record "timestamps" = some b1 := by
    rw [keepTail "timestamps" (by decide) (by decide) (by decide) (by decide)
      (by decide), h4rec,
      dlookup_dset_ne st3.record "descriptors" "timestamps" _ (by decide),
      h3rec "timestamps" (by decide), h2rec,
      dlookup_dset_ne st1.record "acquisition_source" "timestamps" _ (by decide),
      h1rec, dlookup_dset_eq]
  have ha : dlookup st9.record "acquisition_source" = some b2 := by
    rw [keepTail "acquisition_source" (by decide) (by decide) (by decide)
      (by decide) (by decide), h4rec,
      dlookup_dset_ne st3.record "descriptors" "acquisition_source" _
        (by decide),
      h3rec "acquisition_source" (by decide), h2rec, dlookup_dset_eq]
  have hd : dlookup st9.record "descriptors" =
      some (descriptorsBlock st3.ctx.created_utc.dateStr
        st3.ctx.created_utc.isoStr ds) := by
    rw [keepTail "descriptors" (by decide) (by decide) (by decide) (by decide)
      (by decide), h4rec, dlookup_dset_eq]
  rw [hconv, finishConversion_record, hrun]
  refine ⟨st9.record, rfl, ?_, ?_, ?_, ?_⟩
  · simp only [hasKey, ht, Option.isSome_some]
  · simp only [hasKey, ha, Option.isSome_some]
  · simp only [hasKey, hd, Option.isSome_some]
  · exact ⟨_, ds, hd, rfl, h4ne⟩
